import Mathlib

/-!
Verification development for the tc-build staged LLVM build orchestrator
(`build-llvm.py` driving `tc_build/llvm_build_stages.py`).

The Python sources are shallowly embedded: the orchestrator state
(`LLVMStages`) becomes an explicit record threaded through executable stage
functions, the driver script's stage dispatch becomes a small instruction
list interpreted by `exec`, and observable behaviour (warnings, builder
configurations, kernel build matrices, profile merges) is recorded in an
event trace.  Machinery that lives outside the two source files
(`tc_build/llvm.py`, `tc_build/kernel.py`, `tc_build/utils.py`) is treated
as an external collaborator and abstracted into a `World` record of facts
and oracles; each such point is marked in the doc comments.
-/

namespace TcBuild

/-! ## Python string primitives

The orchestrator manipulates workload names with Python string operations
(`in`, `replace`, `split`).  These are re-implemented over `List Char` so
that every use is executable and matches Python semantics. -/

/-- `chPre pat l` is true when `pat` is an initial run of `l`
(Python-style prefix test used by the substring search below). -/
def chPre : List Char → List Char → Bool
  | [], _ => true
  | _ :: _, [] => false
  | a :: as, b :: bs => a == b && chPre as bs

/-- Substring containment on character lists: Python's `pat in s`.
The empty pattern is contained in every string, as in Python. -/
def containsSubChars (pat : List Char) : List Char → Bool
  | [] => pat.isEmpty
  | c :: cs => chPre pat (c :: cs) || containsSubChars pat cs

/-- Python's `pat in s` on `String`. -/
def strHas (s pat : String) : Bool := containsSubChars pat.data s.data

/-- Remove every occurrence of `pat`, scanning left to right:
Python's `s.replace(pat, '')`.  `fuel` bounds the recursion; callers pass
the length of the subject list, which suffices because every step consumes
at least one character of the subject. -/
def replCharsFuel (pat : List Char) : Nat → List Char → List Char
  | 0, l => l
  | _ + 1, [] => []
  | f + 1, c :: cs =>
    if !pat.isEmpty && chPre pat (c :: cs) then
      replCharsFuel pat f ((c :: cs).drop pat.length)
    else
      c :: replCharsFuel pat f cs

/-- Python's `s.replace(pat, '')`. -/
def stripAll (s pat : String) : String :=
  ⟨replCharsFuel pat.data s.data.length s.data⟩

/-- Python's `s.split(sep)` for a single-character separator. -/
def splitChars (sep : Char) : List Char → List (List Char)
  | [] => [[]]
  | c :: cs =>
    let r := splitChars sep cs
    if c == sep then [] :: r
    else
      match r with
      | [] => [[c]]
      | h :: t => (c :: h) :: t

/-- Number of fields of Python's `s.split('-')`. -/
def splitDashCount (s : String) : Nat := (splitChars '-' s.data).length

/-- Python's `s.split('-')[0]`: the run before the first dash. -/
def beforeDash (s : String) : String := ⟨s.data.takeWhile (fun c => c != '-')⟩

/-- Python's `s.split('=', 1)` when it yields two fields; `none` when the
separator is absent (Python's `dict(...)` then raises `ValueError`). -/
def splitOnceChar (sep : Char) : List Char → Option (List Char × List Char)
  | [] => none
  | c :: cs =>
    if c == sep then some ([], cs)
    else (splitOnceChar sep cs).map (fun p => (c :: p.1, p.2))

/-- Python's `s.capitalize()`: first character upper-cased, rest lower. -/
def pyCapitalize (s : String) : String :=
  match s.data with
  | [] => ""
  | c :: cs => ⟨c.toUpper :: cs.map Char.toLower⟩

/-- Lexicographic comparison of version component lists: Python's `<` on
`list[int]` as used for the kernel-version check. -/
def listLtNat : List Nat → List Nat → Bool
  | [], [] => false
  | [], _ :: _ => true
  | _ :: _, [] => false
  | a :: as, b :: bs => if a < b then true else if b < a then false else listLtNat as bs

/-! ## Python `dict` model

Configuration defines are Python dicts with string keys.  They are embedded
as insertion-ordered association lists: assignment replaces the value of an
existing key in place and appends new keys, exactly like a Python dict. -/

/-- Insertion-ordered association-list assignment: `d[k] = v`. -/
def alistSet {α : Type} (d : List (String × α)) (k : String) (v : α) :
    List (String × α) :=
  if d.any (fun p => p.1 == k) then
    d.map (fun p => if p.1 == k then (k, v) else p)
  else d ++ [(k, v)]

/-- A cmake-defines mapping (`key → value`). -/
abbrev Dict := List (String × String)

/-- `d[k] = v` on defines. -/
def dictSet (d : Dict) (k v : String) : Dict := alistSet d k v

/-- Python's `d.update(e)`: fold the entries of `e` into `d` in order. -/
def dictUpdate (d e : Dict) : Dict := e.foldl (fun a p => dictSet a p.1 p.2) d

/-- Python's `k in d`. -/
def dictHasKey (d : Dict) (k : String) : Bool := d.any (fun p => p.1 == k)

/-- Python's `d.get(k)`. -/
def dictGet (d : Dict) (k : String) : Option String :=
  (d.find? (fun p => p.1 == k)).map (fun p => p.2)

/-- Python's `dict(pairs)`: later duplicates win, first-occurrence order. -/
def dictFromPairs (ps : List (String × String)) : Dict :=
  ps.foldl (fun d p => dictSet d p.1 p.2) []

/-! ## Data model -/

/-- The concrete builder classes of `tc_build/llvm.py` that the orchestrator
instantiates, plus the default (final) variants.  The four instrumented
variants mirror the `choices` lookup table in `setup_instrumentation`. -/
inductive Variant where
  | bootstrap
  | slim
  | full
  | slimInstr
  | fullInstr
  | slimCS
  | fullCS
  deriving DecidableEq

/-- Where a builder's tools come from: unset (fresh builder), the host
toolchain (`HostTools`), or a stage's `bin` directory (`StageTools`). -/
inductive ToolsKind where
  | unset
  | host
  | stage (dir : String)
  deriving DecidableEq

/-- The fields of an `LLVMKernelBuilder` (from `tc_build/kernel.py`,
external to the embedded sources) that the orchestration code assigns:
build/source folders, the toolchain prefix directory, and the matrix of
kernel configuration target → LLVM target triples to build. -/
structure KernelBuilderState where
  folders_build : Option String := none
  folders_source : Option String := none
  toolchainPrefixDir : Option String := none
  matrix : List (String × List String) := []
  deriving DecidableEq

/-- The mutable fields of an LLVM `Builder` instance that the orchestration
code reads or writes.  `commonSnapshot` records the copy of the orchestrator's
common cmake defines merged into this builder by `configure_llvm_builder`,
which is the observation the CommonDefines claims are about. -/
structure BuilderState where
  id : Nat
  variant : Variant
  targets : List String := []
  projects : List String := []
  cmake_defines : Dict := []
  commonSnapshot : Dict := []
  tools : ToolsKind := .unset
  folders_build : Option String := none
  folders_source : Option String := none
  folders_install : Option String := none
  build_targets : List String := []
  check_targets : List String := []
  install_targets : List String := []
  ccache : Bool := false
  show_commands : Bool := false
  quiet_cmake : Bool := false
  clang_tblgen : Option String := none
  llvm_tblgen : Option String := none
  llvm_bolt : Option String := none
  merge_fdata : Option String := none
  perf2bolt : Option String := none
  bolt : Bool := false
  bolt_builder : Option KernelBuilderState := none
  deriving DecidableEq

/-- The resolved command-line configuration (`argparse.Namespace`) consumed
by the orchestrator.  Field names follow `build-llvm.py`; `none`/`[]` stand
for Python `None` (absent optional arguments). -/
structure Args where
  assertions : Bool := false
  bolt : Bool := false
  build_stage1_only : Bool := false
  build_targets : List String := ["all"]
  build_type : Option String := none
  check_targets : List String := []
  cspgo : Bool := false
  defines : List String := []
  full_toolchain : Bool := false
  install_folder : Option String := none
  install_targets : List String := []
  linux_folder : Option String := none
  llvm_folder : Option String := none
  lto : Option String := none
  no_ccache : Bool := false
  pgo : List String := []
  projects : List String := []
  quiet_cmake : Bool := false
  show_build_commands : Bool := false
  stage : Option String := none
  targets : List String := []
  vendor_string : String := "ClangBuiltLinux"
  deriving DecidableEq

/-- Facts about and oracles for the external collaborators: the filesystem,
`LinuxSourceManager`/`KernelBuilder` (tc_build/kernel.py), and
`LLVMSourceManager`/builder classes (tc_build/llvm.py), none of which are
part of the embedded sources.  `hostTargetEnabled` and `hostTarget` model
`Builder.host_target_is_enabled()`/`host_target()`; `minKernelVersion`
models `KernelBuilder.MINIMUM_SUPPORTED_VERSION`. -/
structure World where
  linuxFolderExists : Bool := true
  linuxMakefileExists : Bool := true
  linuxVersion : List Nat := [6, 11, 0]
  minKernelVersion : List Nat := [6, 11, 0]
  llvmFolderExists : Bool := true
  targetsValid : Bool := true
  defaultTargets : List String := ["AArch64", "ARM", "X86"]
  defaultProjects : List String := ["clang", "lld", "polly"]
  bootstrapTargets : List String := ["host"]
  bootstrapProjects : List String := ["clang", "lld"]
  canUsePerf : Bool := true
  machineIsX8664 : Bool := true
  hasValidateMemRefs : Bool := false
  hostTargetEnabled : List String → Bool := fun _ => true
  hostTarget : String := "X86"

/-- Configuration errors raised by `LLVMStages.__init__` (each corresponds
to one `RuntimeError`/`ValueError` site). -/
inductive BuildErr where
  | linuxFolderMissing
  | notKernelTree
  | linuxTooOld
  | llvmFolderMissing
  | invalidTargets
  | badDefine
  deriving DecidableEq

/-- Orchestrator state: the fields of `LLVMStages` that evolve during a run.
`nextId` numbers builder instances so that object identity (which concrete
`Builder` a stage holds) is observable in the embedding. -/
structure OrchState where
  common_cmake_defines : Dict
  final : BuilderState
  instrumented : Option BuilderState := none
  lsm : Option String := none
  llvm_folder : String
  nextId : Nat
  deriving DecidableEq

/-- The six logical build stages (`instrumentation`/`profiling` with
`cspgo=True` are the cs- variants). -/
inductive StageOp where
  | bootstrap
  | instrumentation
  | profiling
  | csinstrumentation
  | csprofiling
  | final
  deriving DecidableEq

/-- Observable events of a run: warnings printed, builders configured
(`.configure()` invoked, with a snapshot of the builder), builds executed,
the PGO workload builders, profile merges, and stage completions (the
decorator's closing report). -/
inductive Event where
  | warn (msg : String)
  | configured (op : StageOp) (b : BuilderState)
  | built (id : Nat)
  | workloadConfigured (b : BuilderState)
  | kernelBuilt (kb : KernelBuilderState)
  | profdata (id : Nat) (variant : Variant)
  | stageDone (op : StageOp)
  deriving DecidableEq

/-- How a run ended: ran the whole dispatch script, or terminated with
success from inside a stage decorator (`sys.exit(0)` in single-stage mode). -/
inductive Outcome where
  | completed
  | earlyExit
  deriving DecidableEq

/-- Result of a (construction-successful) run. -/
structure RunResult where
  trace : List Event
  state : OrchState
  outcome : Outcome
  deriving DecidableEq

/-- The driver script's statements, in order: decorated stage calls, the
`update_defines` fix-up, and the pre-final re-construction of the
instrumented builder. -/
inductive Instr where
  | stageI (op : StageOp)
  | updDefines
  | presetInstrumented
  deriving DecidableEq

/-! ## Stage directory layout (`LLVMStages.__init__`) -/

def bootstrapDir : String := "bootstrap"
def instrumentationDir : String := "instrumentation"
def cspgoInstrumentationDir : String := "cspgo_instrumentation"
def profilingDir : String := "profiling"
def cspgoProfilingDir : String := "cspgo_profiling"
def finalDir : String := "final"

/-- `DEFAULT_KERNEL_FOR_PGO` from `build-llvm.py`. -/
def defaultKernelForPgo : List Nat := [6, 11, 0]

/-- `'.'.join(str(x) for x in kernel_version if x)` and the
`linux-{ver_str}` source location for the downloaded tarball. -/
def defaultLinuxLocation (kernel_version : List Nat) : String :=
  "linux-" ++ String.intercalate "." ((kernel_version.filter (fun x => x ≠ 0)).map toString)

/-! ## Common cmake defines -/

/-- Parse one `KEY=VALUE` override: Python `define.split('=', 1)`;
`none` when no `=` is present (the `dict(...)` call then raises). -/
def parseDefine (s : String) : Option (String × String) :=
  (splitOnceChar '=' s.data).map (fun p => (⟨p.1⟩, ⟨p.2⟩))

/-- Parse all `-D` overrides, failing on the first malformed one. -/
def parseDefines : List String → Option (List (String × String))
  | [] => some []
  | s :: rest =>
    match parseDefine s, parseDefines rest with
    | some kv, some r => some (kv :: r)
    | _, _ => none

/-- The unconditional cmake defines computed at the end of
`LLVMStages.__init__` (lines 158-167): assertions, vendor strings, then the
user's `-D KEY=VALUE` overrides applied last. -/
def initCommonDefines (args : Args) : Option Dict :=
  let d : Dict := []
  let d := if args.assertions then dictSet d "LLVM_ENABLE_ASSERTIONS" "ON" else d
  let d :=
    if args.vendor_string ≠ "" then
      dictSet (dictSet d "CLANG_VENDOR" args.vendor_string) "LLD_VENDOR" args.vendor_string
    else d
  if args.defines ≠ [] then
    match parseDefines args.defines with
    | none => none
    | some ps => some (dictUpdate d (dictFromPairs ps))
  else some d

/-- `LLVMStages.update_defines` (lines 199-209): default the two compiler
flag keys to empty if unset, then apply the user's build type. -/
def updateDefinesFn (args : Args) (d : Dict) : Dict :=
  let d := if dictHasKey d "CMAKE_C_FLAGS" then d else dictSet d "CMAKE_C_FLAGS" ""
  let d := if dictHasKey d "CMAKE_CXX_FLAGS" then d else dictSet d "CMAKE_CXX_FLAGS" ""
  match args.build_type with
  | some bt => dictSet d "CMAKE_BUILD_TYPE" bt
  | none => d

/-! ## PGO kernel workload reconciliation (`LLVMStages.profiling`) -/

/-- The warning printed when a full and a slim request collide. -/
def warnBothMsg (c : String) : String :=
  "Both full and slim were specified for " ++ c ++ ", ignoring full..."

/-- Python `list.remove`: drop the first occurrence. -/
def removeFirstStr : List String → String → List String
  | [], _ => []
  | a :: as, x => if a == x then as else a :: removeFirstStr as x

/-- The `for pgo_target in pgo_targets: ... pgo_targets.remove(...)` loop of
`profiling` (lines 259-267), with Python's index-based iteration semantics
over the list being mutated: the cursor `i` advances by one per step and the
loop stops when it reaches the current length.  `fuel` starts at the
original length, which bounds the number of steps since the list never
grows. -/
def dedupPgoAux (fuel i : Nat) (l ws : List String) : List String × List String :=
  match fuel with
  | 0 => (l, ws)
  | f + 1 =>
    if h : i < l.length then
      let t := l.get ⟨i, h⟩
      if strHas t "slim" then
        let c := beforeDash t
        if l.contains c then
          dedupPgoAux f (i + 1) (removeFirstStr l c) (ws ++ [warnBothMsg c])
        else dedupPgoAux f (i + 1) l ws
      else dedupPgoAux f (i + 1) l ws
    else (l, ws)

/-- Lines 258-267 of `profiling`: strip the `kernel-` markers from the
requested PGO workloads, then reconcile full/slim collisions in place.
Returns the effective kernel workload list and the warnings printed. -/
def effectivePgoTargets (pgo : List String) : List String × List String :=
  let ts := (pgo.filter (fun s => strHas s "kernel-")).map (fun s => stripAll s "kernel-")
  dedupPgoAux ts.length 0 ts []

/-- The single representative triple for a slim kernel build (lines
294-298): the host triple when enabled in the instrumented builder's target
list, else `final.targets[0:1]`. -/
def pickSlimKernelTargets (w : World) (instrTargets finalTargets : List String) :
    List String :=
  if w.hostTargetEnabled instrTargets then [w.hostTarget] else finalTargets.take 1

/-- The LLVM target list for one kernel workload item (lines 294-303):
slim items (two `-`-separated fields) get the single representative triple;
full items get the default target list when `all` is configured, else the
resolved target list. -/
def pickKernelTargets (w : World) (instrTargets finalTargets : List String)
    (item : String) : List String :=
  if splitDashCount item == 2 then
    pickSlimKernelTargets w instrTargets finalTargets
  else if finalTargets.contains "all" then w.defaultTargets
  else finalTargets

/-- The kernel builder matrix assembled by the loop over `pgo_targets`
(lines 274-305): each item's configuration target maps to its LLVM target
list, with dict-assignment semantics. -/
def kernelMatrixOf (w : World) (instrTargets finalTargets : List String)
    (items : List String) : List (String × List String) :=
  items.foldl
    (fun m item => alistSet m (beforeDash item) (pickKernelTargets w instrTargets finalTargets item))
    []

/-! ## Builder configuration (`LLVMStages.configure_llvm_builder`) -/

/-- Lines 169-182: wire a builder to the orchestrator.  The common cmake
defines are merged into the builder's own defines (stage-local keys win
over nothing here; later stage-local assignments go to the builder's copy).
A `tools` directory means the builder compiles with that stage's toolchain
and inherits the final builder's resolved targets and projects; otherwise
it uses the host tools. -/
def configure_llvm_builder (args : Args) (st : OrchState) (b : BuilderState)
    (builddir : String) (tools : Option String) : BuilderState :=
  let b := { b with
    show_commands := args.show_build_commands
    quiet_cmake := args.quiet_cmake
    folders_source := some st.llvm_folder
    folders_build := some builddir
    cmake_defines := dictUpdate b.cmake_defines st.common_cmake_defines
    commonSnapshot := st.common_cmake_defines }
  match tools with
  | some t =>
    { b with tools := .stage (t ++ "/bin")
             targets := st.final.targets
             projects := st.final.projects }
  | none => { b with tools := .host }

/-! ## Stage bodies -/

/-- `LLVMStages.bootstrap` (lines 184-197).  The builder's initial targets
and projects come from the `LLVMBootstrapBuilder` class defaults (external,
`tc_build/llvm.py`), supplied by the `World`. -/
def bootstrapStage (args : Args) (w : World) (st : OrchState) :
    OrchState × List Event :=
  let b : BuilderState :=
    { id := st.nextId
      variant := .bootstrap
      targets := w.bootstrapTargets
      projects := w.bootstrapProjects
      build_targets := ["distribution"]
      ccache := !args.no_ccache }
  let b := configure_llvm_builder args st b bootstrapDir none
  let b := if args.bolt then { b with projects := b.projects ++ ["bolt"] } else b
  let b := if args.pgo ≠ [] then { b with projects := b.projects ++ ["compiler-rt"] } else b
  ({ st with nextId := st.nextId + 1 }, [.configured .bootstrap b, .built b.id])

/-- The instrumented-builder class picked by the `choices` table of
`setup_instrumentation` (lines 212-216), keyed by cspgo × full-toolchain. -/
def variantOfInstr (cspgo full : Bool) : Variant :=
  match cspgo, full with
  | false, false => .slimInstr
  | false, true => .fullInstr
  | true, false => .slimCS
  | true, true => .fullCS

/-- `LLVMStages.setup_instrumentation` (lines 211-224): construct and wire
an instrumented builder against the bootstrap toolchain, without running
it.  Returns the builder and the state with the id counter advanced. -/
def setup_instrumentation (args : Args) (st : OrchState) (cspgo : Bool) :
    BuilderState × OrchState :=
  let b : BuilderState :=
    { id := st.nextId
      variant := variantOfInstr cspgo args.full_toolchain
      build_targets := [if args.full_toolchain then "all" else "distribution"]
      check_targets := if args.pgo.contains "llvm" then args.check_targets else [] }
  let dir := if cspgo then cspgoInstrumentationDir else instrumentationDir
  let b := configure_llvm_builder args st b dir (some bootstrapDir)
  (b, { st with nextId := st.nextId + 1 })

/-- `LLVMStages.instrumentation` (lines 226-230): build the instrumented
compiler and retain the instance on the orchestrator. -/
def instrumentationStage (args : Args) (st : OrchState) (cspgo : Bool) :
    OrchState × List Event :=
  let p := setup_instrumentation args st cspgo
  ({ p.2 with instrumented := some p.1 },
   [.configured (if cspgo then .csinstrumentation else .instrumentation) p.1,
    .built p.1.id])

/-- `LLVMStages.profiling` (lines 232-315): reuse the retained instrumented
builder or construct one; optionally build the `llvm` workload with the
instrumented toolchain (falling back to the bootstrap tblgen tools outside
full-toolchain runs); reconcile and build the kernel workloads; merge the
profile data.  The local instrumented builder is not stored back on the
orchestrator, exactly as in the source. -/
def profilingStage (args : Args) (w : World) (st : OrchState) (cspgo : Bool) :
    OrchState × List Event :=
  let pI : BuilderState × OrchState :=
    match st.instrumented with
    | some b => (b, st)
    | none => setup_instrumentation args st cspgo
  let instrB := pI.1
  let st := pI.2
  let dirs := if cspgo then (cspgoProfilingDir, cspgoInstrumentationDir)
              else (profilingDir, instrumentationDir)
  let pL : OrchState × List Event :=
    if args.pgo.contains "llvm" then
      let lb : BuilderState :=
        { id := st.nextId, variant := if args.full_toolchain then .full else .slim }
      let lb := configure_llvm_builder args st lb dirs.1 (some dirs.2)
      let lb :=
        { lb with
          clang_tblgen :=
            if !args.full_toolchain then some (bootstrapDir ++ "/bin/clang-tblgen")
            else lb.clang_tblgen
          llvm_tblgen :=
            if !args.full_toolchain then some (bootstrapDir ++ "/bin/llvm-tblgen")
            else lb.llvm_tblgen }
      ({ st with nextId := st.nextId + 1 }, [.workloadConfigured lb, .built lb.id])
    else (st, [])
  let st := pL.1
  let llvmEvs := pL.2
  let pT := effectivePgoTargets args.pgo
  let kernelEvs :=
    if pT.1 ≠ [] then
      [Event.kernelBuilt
        { folders_build := some "linux"
          folders_source := st.lsm
          toolchainPrefixDir := some dirs.2
          matrix := kernelMatrixOf w instrB.targets st.final.targets pT.1 }]
    else []
  (st, (pT.2.map Event.warn) ++ llvmEvs ++ kernelEvs
        ++ [Event.profdata instrB.id instrB.variant])

/-- Modelled from the spec: the merged profile file exposed by an
instrumented builder (`profiles_output_path` / `final_name` live in
`tc_build/llvm.py`, outside the embedded sources) — "the merged profile
path" inside the builder's output tree. -/
def profdataFileOf (ib : BuilderState) : String :=
  (ib.folders_build.getD "") ++ "/profiles/final.profdata"

/-- `LLVMStages.final_step` (lines 317-368): configure the final builder
against the bootstrap toolchain, apply LTO and the merged PGO profile,
re-point the tools at the host toolchain when bootstrap was skipped
(enabling bolt if needed), attach the BOLT kernel workload sub-builder, and
run configure/build. -/
def finalStage (args : Args) (w : World) (st : OrchState) :
    OrchState × List Event :=
  let f := st.final
  let f := { f with
    build_targets := args.build_targets
    check_targets := args.check_targets
    folders_install := args.install_folder
    install_targets := args.install_targets }
  let f := configure_llvm_builder args st f finalDir (some bootstrapDir)
  let f :=
    match args.lto with
    | some l => { f with cmake_defines := dictSet f.cmake_defines "LLVM_ENABLE_LTO" (pyCapitalize l) }
    | none => f
  let f :=
    match st.instrumented with
    | some ib =>
      if args.pgo ≠ [] ∧ ib.folders_build.isSome then
        { f with cmake_defines := dictSet f.cmake_defines "LLVM_PROFDATA_FILE" (profdataFileOf ib) }
      else f
    | none => f
  let f :=
    if args.build_stage1_only then
      let f := { f with ccache := !args.no_ccache, tools := .host }
      if args.bolt then
        let f :=
          if !(f.projects.contains "all" || f.projects.contains "bolt") then
            { f with projects := f.projects ++ ["bolt"] }
          else f
        { f with llvm_bolt := some (finalDir ++ "/bin/llvm-bolt")
                 merge_fdata := some (finalDir ++ "/bin/merge-fdata")
                 perf2bolt := some (finalDir ++ "/bin/perf2bolt") }
      else f
    else f
  let f :=
    if args.bolt then
      { f with
        bolt := true
        bolt_builder := some
          { folders_build := some "linux"
            folders_source := st.lsm
            matrix := alistSet []
              "defconfig"
              (if w.hostTargetEnabled f.targets then [w.hostTarget] else f.targets.take 1) } }
    else f
  ({ st with final := f }, [.configured .final f, .built f.id])

/-! ## Construction (`LLVMStages.__init__`) -/

/-- Lines 49-87 of `LLVMStages.__init__`: when BOLT or a kernel-family PGO
workload is requested, validate a user-supplied alternate Linux source
(existence, Makefile presence, minimum supported version) or point at the
default (downloaded) kernel tree.  Returns the `lsm` location. -/
def linuxSourceStep (args : Args) (w : World) (kernel_version : List Nat) :
    Except BuildErr (Option String) :=
  if args.bolt
      || (!args.pgo.isEmpty && !(args.pgo.filter (fun x => strHas x "kernel")).isEmpty) then
    match args.linux_folder with
    | some lf =>
      if !w.linuxFolderExists then .error .linuxFolderMissing
      else if !w.linuxMakefileExists then .error .notKernelTree
      else if listLtNat w.linuxVersion w.minKernelVersion then .error .linuxTooOld
      else .ok (some lf)
    | none => .ok (some (defaultLinuxLocation kernel_version))
  else .ok none

/-- Lines 89-100: validate the LLVM source location (a user-supplied folder
must exist; otherwise the default clone location is used). -/
def llvmSourceStep (args : Args) (w : World) : Except BuildErr String :=
  match args.llvm_folder with
  | some f => if !w.llvmFolderExists then .error .llvmFolderMissing else .ok f
  | none => .ok "llvm-project"

/-- Lines 114-122: resolve (and for user-supplied lists validate) the final
builder target list. -/
def targetsStep (args : Args) (w : World) : Except BuildErr (List String) :=
  if args.targets ≠ [] then
    if w.targetsValid then .ok args.targets else .error .invalidTargets
  else .ok (if args.full_toolchain then ["all"] else w.defaultTargets)

/-- Lines 132-156: the advisory warnings about BOLT instrumentation mode
(perf unavailable), plus the five-second grace notice when any fired. -/
def boltAdvisoryWarns (args : Args) (w : World) : List String :=
  let ws :=
    if args.bolt && !w.canUsePerf then
      (if !args.pgo.isEmpty && !args.assertions && !w.hasValidateMemRefs then
         ["bolt instrumentation with PGO and no assertions might crash",
          "https://github.com/llvm/llvm-project/issues/55004",
          "consider adding assertions"]
       else [])
      ++ (if !w.machineIsX8664 then
            ["bolt instrumentation may not work on non-x86_64 machines",
             "https://github.com/llvm/llvm-project/issues/55005",
             "consider dropping bolt"]
          else [])
    else []
  if ws ≠ [] then ws ++ ["continuing in 5 seconds"] else ws

/-- Lines 36-167 of `LLVMStages.__init__`: validate the Linux workload
source (when BOLT or kernel PGO was requested), validate the LLVM source
location, resolve the final builder targets and projects (validating
user-supplied targets), print the BOLT advisory warnings, and compute the
common cmake defines.  The orchestrator state is only produced when every
validation passes. -/
def initStages (args : Args) (w : World) (kernel_version : List Nat) :
    Except BuildErr (OrchState × List Event) :=
  match linuxSourceStep args w kernel_version with
  | .error e => .error e
  | .ok lsm =>
    match llvmSourceStep args w with
    | .error e => .error e
    | .ok llvmF =>
      match targetsStep args w with
      | .error e => .error e
      | .ok tgts =>
        let projs :=
          if args.projects ≠ [] then args.projects
          else if args.full_toolchain then ["all"]
          else w.defaultProjects
        match initCommonDefines args with
        | none => .error .badDefine
        | some cd =>
          .ok ({ common_cmake_defines := cd
                 final :=
                   { id := 0
                     variant := if args.full_toolchain then .full else .slim
                     folders_source := some llvmF
                     targets := tgts
                     projects := projs }
                 instrumented := none
                 lsm := lsm
                 llvm_folder := llvmF
                 nextId := 1 },
               (boltAdvisoryWarns args w).map Event.warn)

/-! ## Driver dispatch (`build-llvm.py` lines 490-515) -/

/-- `not args.stage or args.stage == s`. -/
def stageMatches (args : Args) (s : String) : Bool :=
  match args.stage with
  | none => true
  | some v => v == s

/-- Line 493: the guarded bootstrap call. -/
def programPre (args : Args) : List Instr :=
  if !args.build_stage1_only && stageMatches args "bootstrap" then
    [Instr.stageI .bootstrap]
  else []

/-- Lines 498-513: the PGO block and the final block. -/
def programPost (args : Args) : List Instr :=
  (if !args.pgo.isEmpty then
     (if stageMatches args "instrumentation" then [Instr.stageI .instrumentation] else [])
     ++ (if stageMatches args "profiling" then [Instr.stageI .profiling] else [])
     ++ (if args.cspgo then
           (if stageMatches args "csinstrumentation" then [Instr.stageI .csinstrumentation] else [])
           ++ (if stageMatches args "csprofiling" then [Instr.stageI .csprofiling] else [])
         else [])
   else [])
  ++ (if stageMatches args "final" then [Instr.presetInstrumented, Instr.stageI .final] else [])

/-- The sequence of statements the driver executes for a given
configuration, mirroring the conditionals of lines 493-513: the guarded
bootstrap, the unconditional `update_defines`, then the PGO and final
blocks. -/
def program (args : Args) : List Instr :=
  programPre args ++ [Instr.updDefines] ++ programPost args

/-- Dispatch one stage method call. -/
def stageBody (args : Args) (w : World) (st : OrchState) :
    StageOp → OrchState × List Event
  | .bootstrap => bootstrapStage args w st
  | .instrumentation => instrumentationStage args st false
  | .csinstrumentation => instrumentationStage args st true
  | .profiling => profilingStage args w st false
  | .csprofiling => profilingStage args w st true
  | .final => finalStage args w st

/-- Execute one driver statement.  A `stageI` records the decorator's
closing `stageDone` report after the body. -/
def execInstr (args : Args) (w : World) (st : OrchState) :
    Instr → OrchState × List Event
  | .stageI op =>
    let p := stageBody args w st op
    (p.1, p.2 ++ [.stageDone op])
  | .updDefines =>
    ({ st with common_cmake_defines := updateDefinesFn args st.common_cmake_defines }, [])
  | .presetInstrumented =>
    if !args.pgo.isEmpty && st.instrumented.isNone then
      let p := setup_instrumentation args st args.cspgo
      ({ p.2 with instrumented := some p.1 }, [])
    else (st, [])

/-- Is this statement a decorated stage call (whose decorator may exit)? -/
def isStageInstr : Instr → Bool
  | .stageI _ => true
  | _ => false

/-- Run the driver statements in order.  After any decorated stage, the
`build_stage` decorator calls `sys.exit(0)` when a single stage was
requested, so the remaining statements are dropped and the run ends with
`earlyExit`. -/
def exec (args : Args) (w : World) : OrchState → List Instr → RunResult
  | st, [] => ⟨[], st, .completed⟩
  | st, i :: rest =>
    let p := execInstr args w st i
    if isStageInstr i && args.stage.isSome then
      ⟨p.2, p.1, .earlyExit⟩
    else
      let r := exec args w p.1 rest
      ⟨p.2 ++ r.trace, r.state, r.outcome⟩

/-- The whole script: construct the orchestrator (all eager validation),
then run the stage dispatch. -/
def runScript (args : Args) (w : World) : Except BuildErr RunResult :=
  match initStages args w defaultKernelForPgo with
  | .error e => .error e
  | .ok p =>
    let r := exec args w p.1 (program args)
    .ok { r with trace := p.2 ++ r.trace }

/-! ## Derived observations used by the claims -/

/-- The target list the constructor resolves for the default (final)
builder: explicit user list > full-toolchain `all` > domain default. -/
def resolvedTargets (args : Args) (w : World) : List String :=
  if args.targets ≠ [] then args.targets
  else if args.full_toolchain then ["all"]
  else w.defaultTargets

/-- The project list the constructor resolves for the default builder. -/
def resolvedProjects (args : Args) (w : World) : List String :=
  if args.projects ≠ [] then args.projects
  else if args.full_toolchain then ["all"]
  else w.defaultProjects

/-- The stage operations completed in a trace, in order. -/
def stageOps (tr : List Event) : List StageOp :=
  tr.filterMap fun e => match e with | .stageDone op => some op | _ => none

/-- The common-defines snapshots received by post-bootstrap builders. -/
def postSnapshots (tr : List Event) : List Dict :=
  tr.filterMap fun e =>
    match e with
    | .configured op b => if op = .bootstrap then none else some b.commonSnapshot
    | .workloadConfigured b => some b.commonSnapshot
    | _ => none

/-- Checker: every post-bootstrap builder received exactly `u` as its copy
of the common cmake defines. -/
def postCommonOk (u : Dict) (tr : List Event) : Bool :=
  tr.all fun e =>
    match e with
    | .configured op b => op == .bootstrap || decide (b.commonSnapshot = u)
    | .workloadConfigured b => decide (b.commonSnapshot = u)
    | _ => true

/-- Checker: every builder wired to a stage toolchain carries exactly the
construction-resolved target and project lists. -/
def stageToolsOk (tg pj : List String) (tr : List Event) : Bool :=
  tr.all fun e =>
    match e with
    | .configured _ b =>
      match b.tools with
      | .stage _ => decide (b.targets = tg) && decide (b.projects = pj)
      | _ => true
    | .workloadConfigured b =>
      match b.tools with
      | .stage _ => decide (b.targets = tg) && decide (b.projects = pj)
      | _ => true
    | _ => true

/-- Scan state for the cs-instrumentation ordering checker. -/
structure CsScan where
  ok : Bool
  seen : Bool
  deriving DecidableEq

/-- One step of the ordering scan: a cs-instrumentation configure is only
in order after a completed plain instrumentation stage. -/
def csStep (s : CsScan) (e : Event) : CsScan :=
  match e with
  | .stageDone .instrumentation => { s with seen := true }
  | .configured .csinstrumentation _ => { s with ok := s.ok && s.seen }
  | _ => s

/-- Checker: in this trace, cs-instrumentation is only ever configured
after the plain instrumentation stage completed. -/
def csAfterInstr (tr : List Event) : Bool :=
  (tr.foldl csStep ⟨true, false⟩).ok

/-- Scan state for the instrumented-builder reuse checker. -/
structure ReuseScan where
  ok : Bool
  retained : Option (Nat × Variant)
  deriving DecidableEq

/-- One step of the reuse scan: an instrumentation stage retains the
identity (id and variant) of the builder it configured on the orchestrator;
a profile merge is in order only if it used exactly the most recently
retained instrumented builder. -/
def reuseStep (s : ReuseScan) (e : Event) : ReuseScan :=
  match e with
  | .configured .instrumentation b => { s with retained := some (b.id, b.variant) }
  | .configured .csinstrumentation b => { s with retained := some (b.id, b.variant) }
  | .profdata i v => { s with ok := s.ok && decide (s.retained = some (i, v)) }
  | _ => s

/-- Checker: every profile merge in the trace reused exactly the
instrumented builder most recently retained by an instrumentation stage. -/
def reuseOk (tr : List Event) : Bool :=
  (tr.foldl reuseStep ⟨true, none⟩).ok

/-- The builders handed to `instrumentation()` (plain and cs-), in order. -/
def instrConfigured (tr : List Event) : List BuilderState :=
  tr.filterMap fun e =>
    match e with
    | .configured .instrumentation b => some b
    | .configured .csinstrumentation b => some b
    | _ => none

/-- The (id, variant) pairs of the instrumented builders whose profiles were
merged by `profiling()`, in order. -/
def profdataPairs (tr : List Event) : List (Nat × Variant) :=
  tr.filterMap fun e => match e with | .profdata i v => some (i, v) | _ => none

/-- The common-defines snapshots of every configured builder, in trace
order (bootstrap included). -/
def configuredSnapshots (tr : List Event) : List Dict :=
  tr.filterMap fun e =>
    match e with
    | .configured _ b => some b.commonSnapshot
    | .workloadConfigured b => some b.commonSnapshot
    | _ => none

/-- Did the script abort with a configuration error? -/
def isErr : Except BuildErr RunResult → Bool
  | .error _ => true
  | .ok _ => false

/-- The trace of a run, empty for an aborted construction. -/
def runTrace : Except BuildErr RunResult → List Event
  | .ok r => r.trace
  | .error _ => []

/-- The outcome of a run, `none` for an aborted construction. -/
def runOutcome : Except BuildErr RunResult → Option Outcome
  | .ok r => some r.outcome
  | .error _ => none

/-- Was `configure()` ever invoked on a cs-instrumentation builder? -/
def hasCsInstrConfigured (tr : List Event) : Bool :=
  tr.any fun e => match e with | .configured .csinstrumentation _ => true | _ => false

/-- Checker: the trace contains no cs-instrumentation or cs-profiling
activity at all. -/
def noCsOps (tr : List Event) : Bool :=
  tr.all fun e =>
    match e with
    | .configured .csinstrumentation _ => false
    | .configured .csprofiling _ => false
    | .stageDone .csinstrumentation => false
    | .stageDone .csprofiling => false
    | _ => true

/-- Checker: no bootstrap activity, and every final-stage builder ends its
configuration with host tools. -/
def noBootstrapHostFinal (tr : List Event) : Bool :=
  tr.all fun e =>
    match e with
    | .configured .bootstrap _ => false
    | .stageDone .bootstrap => false
    | .configured .final b => b.tools == .host
    | _ => true

/-- The six single-stage names accepted by `--stage`. -/
def stageNames : List String :=
  ["bootstrap", "instrumentation", "profiling", "csinstrumentation", "csprofiling", "final"]

/-- The stage operation a `--stage` name selects. -/
def opOfName (s : String) : StageOp :=
  if s = "bootstrap" then .bootstrap
  else if s = "instrumentation" then .instrumentation
  else if s = "profiling" then .profiling
  else if s = "csinstrumentation" then .csinstrumentation
  else if s = "csprofiling" then .csprofiling
  else .final

/-- Whether the driver's guards let the requested single stage actually
run: bootstrap requires a non-single-stage build, the PGO stages require a
non-empty PGO workload set, the cs- stages additionally require `--cspgo`,
and the final stage always runs. -/
def stageGateOpen (args : Args) (s : String) : Bool :=
  if s = "bootstrap" then !args.build_stage1_only
  else if s = "instrumentation" || s = "profiling" then !args.pgo.isEmpty
  else if s = "csinstrumentation" || s = "csprofiling" then !args.pgo.isEmpty && args.cspgo
  else true

/-- Checker: every configured final builder's BOLT workload sub-builder,
when BOLT is on, targets exactly the single representative triple chosen by
the host-preference policy over the builder's own target list. -/
def boltMatrixOk (w : World) (tr : List Event) : Bool :=
  tr.all fun e =>
    match e with
    | .configured .final b =>
      decide ((b.bolt_builder.map fun kb => kb.matrix)
        = some [("defconfig", pickSlimKernelTargets w b.targets b.targets)])
    | _ => true

/-- A final-stage call, if present, is the last statement (true of the
driver's dispatch, and what makes the final stage's in-place project-list
adjustment invisible to other stages). -/
def finalLast : List Instr → Bool
  | [] => true
  | .stageI .final :: rest => rest.isEmpty
  | _ :: rest => finalLast rest

/-! ## Concrete configurations used by counterexamples and witnesses -/

/-- A world of benign external facts (everything present and valid). -/
def baseWorld : World := {}

/-- All command-line defaults. -/
def defaultArgs : Args := {}

/-- A placeholder orchestrator state for the `resultOf` total extractor. -/
def emptyState : OrchState :=
  { common_cmake_defines := [], final := { id := 0, variant := .slim },
    llvm_folder := "", nextId := 0 }

/-- Total extractor for a run known to construct successfully. -/
def resultOf (x : Except BuildErr RunResult) : RunResult :=
  match x with
  | .ok r => r
  | .error _ => ⟨[], emptyState, .completed⟩

/-- Single-stage profiling requested while no PGO workload is configured. -/
def c3CexArgs : Args := { stage := some "profiling" }

/-- Single-stage cs-instrumentation in a fresh process. -/
def c4CexArgs : Args := { pgo := ["llvm"], cspgo := true, stage := some "csinstrumentation" }

def c2wArgs : Args := { pgo := ["llvm"] }

def c2wRes : RunResult := resultOf (runScript c2wArgs baseWorld)

def c3wArgs : Args := { stage := some "final" }

def c3wRes : RunResult := resultOf (runScript c3wArgs baseWorld)

def c4wArgs : Args := { pgo := ["llvm"], cspgo := true }

def c4wRes : RunResult := resultOf (runScript c4wArgs baseWorld)

def c5wArgs : Args := { build_stage1_only := true, bolt := true }

def c5wRes : RunResult := resultOf (runScript c5wArgs baseWorld)

def c6wArgs : Args := { pgo := ["kernel-defconfig"], cspgo := true }

def c6wRes : RunResult := resultOf (runScript c6wArgs baseWorld)

/-- Single-stage profiling in a fresh process with an LLVM PGO workload. -/
def c6w2Args : Args := { pgo := ["llvm"], stage := some "profiling" }

def c6w2Res : RunResult := resultOf (runScript c6w2Args baseWorld)

def c7wArgs : Args := { pgo := ["llvm", "kernel-defconfig"], cspgo := true, bolt := true }

def c7wRes : RunResult := resultOf (runScript c7wArgs baseWorld)

def c8wArgs : Args := { bolt := true, targets := ["MIPS", "ARM"] }

def c8wWorld : World := { hostTargetEnabled := fun _ => false }

def c8wRes : RunResult := resultOf (runScript c8wArgs c8wWorld)

def c9wArgs : Args := { pgo := ["kernel-defconfig"], linux_folder := some "/linux" }

def c9wWorld : World := { linuxFolderExists := false }

def c10wArgs : Args := { cspgo := true }

def c10wRes : RunResult := resultOf (runScript c10wArgs baseWorld)

/-! ## Helper lemmas: trace scans over warning prefixes -/

theorem stageOps_map_warn (ws : List String) : stageOps (ws.map Event.warn) = [] := by
  induction ws with
  | nil => rfl
  | cons x xs ih => simpa [stageOps, List.filterMap_cons] using ih

theorem profdataPairs_map_warn (ws : List String) :
    profdataPairs (ws.map Event.warn) = [] := by
  induction ws with
  | nil => rfl
  | cons x xs ih => simpa [profdataPairs, List.filterMap_cons] using ih

theorem instrConfigured_map_warn (ws : List String) :
    instrConfigured (ws.map Event.warn) = [] := by
  induction ws with
  | nil => rfl
  | cons x xs ih => simpa [instrConfigured, List.filterMap_cons] using ih

theorem postCommonOk_warns (u : Dict) (ws : List String) :
    postCommonOk u (ws.map Event.warn) = true := by
  induction ws with
  | nil => rfl
  | cons x xs ih => simpa [postCommonOk] using ih

theorem stageToolsOk_warns (tg pj : List String) (ws : List String) :
    stageToolsOk tg pj (ws.map Event.warn) = true := by
  induction ws with
  | nil => rfl
  | cons x xs ih => simpa [stageToolsOk] using ih

theorem noCsOps_warns (ws : List String) : noCsOps (ws.map Event.warn) = true := by
  induction ws with
  | nil => rfl
  | cons x xs ih => simpa [noCsOps] using ih

theorem noBootstrapHostFinal_warns (ws : List String) :
    noBootstrapHostFinal (ws.map Event.warn) = true := by
  induction ws with
  | nil => rfl
  | cons x xs ih => simpa [noBootstrapHostFinal] using ih

theorem csfold_warns (s : CsScan) (ws : List String) :
    (ws.map Event.warn).foldl csStep s = s := by
  induction ws generalizing s with
  | nil => rfl
  | cons x xs ih => simpa [csStep] using ih s

theorem stageOps_append (a b : List Event) :
    stageOps (a ++ b) = stageOps a ++ stageOps b := by
  simp [stageOps]

theorem profdataPairs_append (a b : List Event) :
    profdataPairs (a ++ b) = profdataPairs a ++ profdataPairs b := by
  simp [profdataPairs]

theorem instrConfigured_append (a b : List Event) :
    instrConfigured (a ++ b) = instrConfigured a ++ instrConfigured b := by
  simp [instrConfigured]

theorem postCommonOk_append (u : Dict) (a b : List Event) :
    postCommonOk u (a ++ b) = (postCommonOk u a && postCommonOk u b) := by
  simp [postCommonOk]

theorem stageToolsOk_append (tg pj : List String) (a b : List Event) :
    stageToolsOk tg pj (a ++ b) = (stageToolsOk tg pj a && stageToolsOk tg pj b) := by
  simp [stageToolsOk]

theorem noCsOps_append (a b : List Event) :
    noCsOps (a ++ b) = (noCsOps a && noCsOps b) := by
  simp [noCsOps]

theorem noBootstrapHostFinal_append (a b : List Event) :
    noBootstrapHostFinal (a ++ b) = (noBootstrapHostFinal a && noBootstrapHostFinal b) := by
  simp [noBootstrapHostFinal]

/-! ## Helper lemmas: effects of single driver statements -/

theorem setup_instrumentation_fields (args : Args) (st : OrchState) (c : Bool) :
    (setup_instrumentation args st c).1.id = st.nextId
    ∧ (setup_instrumentation args st c).1.variant = variantOfInstr c args.full_toolchain
    ∧ (setup_instrumentation args st c).1.commonSnapshot = st.common_cmake_defines
    ∧ (setup_instrumentation args st c).1.targets = st.final.targets
    ∧ (setup_instrumentation args st c).1.projects = st.final.projects
    ∧ (setup_instrumentation args st c).1.tools = .stage (bootstrapDir ++ "/bin")
    ∧ (setup_instrumentation args st c).2 = { st with nextId := st.nextId + 1 } :=
  ⟨rfl, rfl, rfl, rfl, rfl, rfl, rfl⟩

theorem finalStage_events (args : Args) (w : World) (st : OrchState) :
    (finalStage args w st).2
      = [.configured .final ((finalStage args w st).1).final,
         .built (((finalStage args w st).1).final).id] := rfl

theorem finalStage_final_fields (args : Args) (w : World) (st : OrchState) :
    (((finalStage args w st).1).final).commonSnapshot = st.common_cmake_defines
    ∧ (((finalStage args w st).1).final).targets = st.final.targets
    ∧ (args.build_stage1_only = true → (((finalStage args w st).1).final).tools = .host)
    ∧ (args.build_stage1_only = false →
        (((finalStage args w st).1).final).tools = .stage (bootstrapDir ++ "/bin")
        ∧ (((finalStage args w st).1).final).projects = st.final.projects)
    ∧ (args.bolt = true →
        (((finalStage args w st).1).final).bolt_builder
          = some { folders_build := some "linux", folders_source := st.lsm,
                   matrix := alistSet [] "defconfig"
                     (if w.hostTargetEnabled st.final.targets then [w.hostTarget]
                      else st.final.targets.take 1) }) := by
  unfold finalStage configure_llvm_builder
  cases hlto : args.lto <;> cases hins : st.instrumented <;>
    dsimp only <;> split_ifs <;>
    refine ⟨rfl, rfl, fun h => ?_, fun h => ?_, fun h => ?_⟩ <;>
    simp_all

theorem execInstr_common (args : Args) (w : World) (st : OrchState) (i : Instr)
    (h : i ≠ Instr.updDefines) :
    ((execInstr args w st i).1).common_cmake_defines = st.common_cmake_defines := by
  cases i with
  | stageI op =>
    cases op with
    | bootstrap => rfl
    | instrumentation => rfl
    | csinstrumentation => rfl
    | profiling =>
      show ((profilingStage args w st false).1).common_cmake_defines = _
      unfold profilingStage
      cases hins : st.instrumented <;> dsimp only <;> split_ifs <;> rfl
    | csprofiling =>
      show ((profilingStage args w st true).1).common_cmake_defines = _
      unfold profilingStage
      cases hins : st.instrumented <;> dsimp only <;> split_ifs <;> rfl
    | final => rfl
  | updDefines => exact absurd rfl h
  | presetInstrumented =>
    show ((if _ then _ else _ : OrchState × List Event).1).common_cmake_defines = _
    split <;> rfl

theorem execInstr_final_preserved (args : Args) (w : World) (st : OrchState) (i : Instr)
    (h : i ≠ Instr.stageI StageOp.final) :
    ((execInstr args w st i).1).final = st.final := by
  cases i with
  | stageI op =>
    cases op with
    | bootstrap => rfl
    | instrumentation => rfl
    | csinstrumentation => rfl
    | profiling =>
      show ((profilingStage args w st false).1).final = _
      unfold profilingStage
      cases hins : st.instrumented <;> dsimp only <;> split_ifs <;> rfl
    | csprofiling =>
      show ((profilingStage args w st true).1).final = _
      unfold profilingStage
      cases hins : st.instrumented <;> dsimp only <;> split_ifs <;> rfl
    | final => exact absurd rfl h
  | updDefines => rfl
  | presetInstrumented =>
    show ((if _ then _ else _ : OrchState × List Event).1).final = _
    split <;> rfl

theorem execInstr_finalTargets (args : Args) (w : World) (st : OrchState) (i : Instr) :
    (((execInstr args w st i).1).final).targets = st.final.targets := by
  by_cases h : i = Instr.stageI StageOp.final
  · subst h
    exact (finalStage_final_fields args w st).2.1
  · rw [execInstr_final_preserved args w st i h]

theorem stageOps_execInstr_stage (args : Args) (w : World) (st : OrchState) (op : StageOp) :
    stageOps (execInstr args w st (.stageI op)).2 = [op] := by
  cases op with
  | profiling =>
    show stageOps ((profilingStage args w st false).2 ++ _) = _
    unfold profilingStage
    cases hins : st.instrumented <;> dsimp only <;> split_ifs <;>
      simp [stageOps_append, stageOps_map_warn, stageOps]
  | csprofiling =>
    show stageOps ((profilingStage args w st true).2 ++ _) = _
    unfold profilingStage
    cases hins : st.instrumented <;> dsimp only <;> split_ifs <;>
      simp [stageOps_append, stageOps_map_warn, stageOps]
  | bootstrap => rfl
  | instrumentation => rfl
  | csinstrumentation => rfl
  | final => rfl

theorem stageOps_execInstr_updDefines (args : Args) (w : World) (st : OrchState) :
    stageOps (execInstr args w st .updDefines).2 = [] := rfl

theorem stageOps_execInstr_preset (args : Args) (w : World) (st : OrchState) :
    stageOps (execInstr args w st .presetInstrumented).2 = [] := by
  show stageOps ((if _ then _ else _ : OrchState × List Event).2) = _
  split <;> rfl

theorem bootstrapStage_shape (args : Args) (w : World) (st : OrchState) :
    ∃ b : BuilderState,
      (bootstrapStage args w st).2 = [.configured .bootstrap b, .built b.id]
      ∧ b.tools = .host := by
  refine ⟨_, rfl, ?_⟩
  split_ifs <;> rfl

theorem instrumentationStage_events (args : Args) (st : OrchState) (c : Bool) :
    (instrumentationStage args st c).2
      = [.configured (if c then .csinstrumentation else .instrumentation)
           (setup_instrumentation args st c).1,
         .built (setup_instrumentation args st c).1.id] := rfl

theorem profilingStage_shape (args : Args) (w : World) (st : OrchState) (c : Bool) :
    ∃ (instrB : BuilderState) (llvmEvs kernelEvs : List Event),
      (profilingStage args w st c).2
        = ((effectivePgoTargets args.pgo).2.map Event.warn) ++ llvmEvs ++ kernelEvs
          ++ [.profdata instrB.id instrB.variant]
      ∧ (st.instrumented = some instrB
         ∨ (st.instrumented = none ∧ instrB = (setup_instrumentation args st c).1))
      ∧ (llvmEvs = [] ∨ ∃ lb : BuilderState, ∃ d : String,
           llvmEvs = [.workloadConfigured lb, .built lb.id]
           ∧ lb.tools = .stage d
           ∧ lb.commonSnapshot = st.common_cmake_defines
           ∧ lb.targets = st.final.targets ∧ lb.projects = st.final.projects)
      ∧ (kernelEvs = [] ∨ ∃ kb : KernelBuilderState, kernelEvs = [.kernelBuilt kb]) := by
  unfold profilingStage
  cases hins : st.instrumented with
  | none =>
    dsimp only
    by_cases hl : args.pgo.contains "llvm" = true
    · simp only [hl, if_true]
      refine ⟨_, _, _, rfl, ?_, ?_, ?_⟩
      · exact Or.inr ⟨by trivial, rfl⟩
      · exact Or.inr ⟨_, _, rfl, rfl, rfl, rfl, rfl⟩
      · split
        · exact Or.inr ⟨_, rfl⟩
        · exact Or.inl rfl
    · simp only [Bool.not_eq_true] at hl
      simp only [hl, Bool.false_eq_true, if_false]
      refine ⟨_, _, _, rfl, ?_, ?_, ?_⟩
      · exact Or.inr ⟨by trivial, rfl⟩
      · exact Or.inl rfl
      · split
        · exact Or.inr ⟨_, rfl⟩
        · exact Or.inl rfl
  | some b =>
    dsimp only
    by_cases hl : args.pgo.contains "llvm" = true
    · simp only [hl, if_true]
      refine ⟨b, _, _, rfl, ?_, ?_, ?_⟩
      · exact Or.inl rfl
      · exact Or.inr ⟨_, _, rfl, rfl, rfl, rfl, rfl⟩
      · split
        · exact Or.inr ⟨_, rfl⟩
        · exact Or.inl rfl
    · simp only [Bool.not_eq_true] at hl
      simp only [hl, Bool.false_eq_true, if_false]
      refine ⟨b, _, _, rfl, ?_, ?_, ?_⟩
      · exact Or.inl rfl
      · exact Or.inl rfl
      · split
        · exact Or.inr ⟨_, rfl⟩
        · exact Or.inl rfl

theorem presetInstrumented_events (args : Args) (w : World) (st : OrchState) :
    (execInstr args w st .presetInstrumented).2 = [] := by
  show ((if _ then _ else _ : OrchState × List Event)).2 = _
  split <;> rfl

theorem postCommonOk_execInstr (args : Args) (w : World) (st : OrchState) (i : Instr) :
    postCommonOk st.common_cmake_defines (execInstr args w st i).2 = true := by
  cases i with
  | stageI op =>
    cases op with
    | bootstrap =>
      obtain ⟨b, hev, -⟩ := bootstrapStage_shape args w st
      show postCommonOk _ ((bootstrapStage args w st).2 ++ _) = _
      rw [hev]
      simp [postCommonOk]
    | instrumentation =>
      have hs := setup_instrumentation_fields args st false
      show postCommonOk _ ((instrumentationStage args st false).2 ++ _) = _
      rw [instrumentationStage_events]
      simp [postCommonOk, hs.2.2.1]
    | csinstrumentation =>
      have hs := setup_instrumentation_fields args st true
      show postCommonOk _ ((instrumentationStage args st true).2 ++ _) = _
      rw [instrumentationStage_events]
      simp [postCommonOk, hs.2.2.1]
    | profiling =>
      obtain ⟨iB, lEvs, kEvs, hev, -, hl, hk⟩ := profilingStage_shape args w st false
      show postCommonOk _ ((profilingStage args w st false).2 ++ _) = _
      rw [hev]
      rcases hl with hl | ⟨lb, d, hl, -, hc, -, -⟩ <;>
        rcases hk with hk | ⟨kb, hk⟩ <;> subst hl hk <;>
        simp [*, postCommonOk_append, postCommonOk_warns, postCommonOk]
    | csprofiling =>
      obtain ⟨iB, lEvs, kEvs, hev, -, hl, hk⟩ := profilingStage_shape args w st true
      show postCommonOk _ ((profilingStage args w st true).2 ++ _) = _
      rw [hev]
      rcases hl with hl | ⟨lb, d, hl, -, hc, -, -⟩ <;>
        rcases hk with hk | ⟨kb, hk⟩ <;> subst hl hk <;>
        simp [*, postCommonOk_append, postCommonOk_warns, postCommonOk]
    | final =>
      have hsnap := (finalStage_final_fields args w st).1
      show postCommonOk _ ((finalStage args w st).2 ++ _) = _
      rw [finalStage_events]
      simp [postCommonOk, hsnap]
  | updDefines => rfl
  | presetInstrumented =>
    show postCommonOk _ ((if _ then _ else _ : OrchState × List Event).2) = _
    split <;> rfl

theorem stageToolsOk_execInstr (args : Args) (w : World) (st : OrchState) (i : Instr)
    (tg pj : List String)
    (htg : st.final.targets = tg) (hpj : st.final.projects = pj) :
    stageToolsOk tg pj (execInstr args w st i).2 = true := by
  cases i with
  | stageI op =>
    cases op with
    | bootstrap =>
      obtain ⟨b, hev, hto⟩ := bootstrapStage_shape args w st
      show stageToolsOk _ _ ((bootstrapStage args w st).2 ++ _) = _
      rw [hev]
      simp [stageToolsOk, hto]
    | instrumentation =>
      have hs := setup_instrumentation_fields args st false
      show stageToolsOk _ _ ((instrumentationStage args st false).2 ++ _) = _
      rw [instrumentationStage_events]
      simp [stageToolsOk, hs.2.2.2.1, hs.2.2.2.2.1, hs.2.2.2.2.2.1, htg, hpj]
    | csinstrumentation =>
      have hs := setup_instrumentation_fields args st true
      show stageToolsOk _ _ ((instrumentationStage args st true).2 ++ _) = _
      rw [instrumentationStage_events]
      simp [stageToolsOk, hs.2.2.2.1, hs.2.2.2.2.1, hs.2.2.2.2.2.1, htg, hpj]
    | profiling =>
      obtain ⟨iB, lEvs, kEvs, hev, -, hl, hk⟩ := profilingStage_shape args w st false
      show stageToolsOk _ _ ((profilingStage args w st false).2 ++ _) = _
      rw [hev]
      rcases hl with hl | ⟨lb, d, hl, hto, -, hta, hpr⟩ <;>
        rcases hk with hk | ⟨kb, hk⟩ <;> subst hl hk <;>
        simp [*, stageToolsOk_append, stageToolsOk_warns, stageToolsOk]
    | csprofiling =>
      obtain ⟨iB, lEvs, kEvs, hev, -, hl, hk⟩ := profilingStage_shape args w st true
      show stageToolsOk _ _ ((profilingStage args w st true).2 ++ _) = _
      rw [hev]
      rcases hl with hl | ⟨lb, d, hl, hto, -, hta, hpr⟩ <;>
        rcases hk with hk | ⟨kb, hk⟩ <;> subst hl hk <;>
        simp [*, stageToolsOk_append, stageToolsOk_warns, stageToolsOk]
    | final =>
      have hf := finalStage_final_fields args w st
      show stageToolsOk _ _ ((finalStage args w st).2 ++ _) = _
      rw [finalStage_events]
      cases h1 : args.build_stage1_only with
      | true =>
        have hh := hf.2.2.1 h1
        simp [stageToolsOk, hh]
      | false =>
        have h2 := hf.2.2.2.1 h1
        simp [stageToolsOk, h2.1, h2.2, hf.2.1, htg, hpj]
  | updDefines => rfl
  | presetInstrumented =>
    show stageToolsOk _ _ ((if _ then _ else _ : OrchState × List Event).2) = _
    split <;> rfl

theorem noCsOps_execInstr (args : Args) (w : World) (st : OrchState) (i : Instr)
    (h1 : i ≠ Instr.stageI .csinstrumentation) (h2 : i ≠ Instr.stageI .csprofiling) :
    noCsOps (execInstr args w st i).2 = true := by
  cases i with
  | stageI op =>
    cases op with
    | bootstrap =>
      obtain ⟨b, hev, -⟩ := bootstrapStage_shape args w st
      show noCsOps ((bootstrapStage args w st).2 ++ _) = _
      rw [hev]
      simp [noCsOps]
    | instrumentation =>
      show noCsOps ((instrumentationStage args st false).2 ++ _) = _
      rw [instrumentationStage_events]
      simp [noCsOps]
    | csinstrumentation => exact absurd rfl h1
    | profiling =>
      obtain ⟨iB, lEvs, kEvs, hev, -, hl, hk⟩ := profilingStage_shape args w st false
      show noCsOps ((profilingStage args w st false).2 ++ _) = _
      rw [hev]
      rcases hl with hl | ⟨lb, d, hl, -, -, -, -⟩ <;>
        rcases hk with hk | ⟨kb, hk⟩ <;> subst hl hk <;>
        simp [noCsOps_append, noCsOps_warns, noCsOps]
    | csprofiling => exact absurd rfl h2
    | final =>
      show noCsOps ((finalStage args w st).2 ++ _) = _
      rw [finalStage_events]
      simp [noCsOps]
  | updDefines => rfl
  | presetInstrumented =>
    show noCsOps ((if _ then _ else _ : OrchState × List Event).2) = _
    split <;> rfl

theorem noBootstrapHostFinal_execInstr (args : Args) (w : World) (st : OrchState) (i : Instr)
    (h1 : args.build_stage1_only = true) (h2 : i ≠ Instr.stageI .bootstrap) :
    noBootstrapHostFinal (execInstr args w st i).2 = true := by
  cases i with
  | stageI op =>
    cases op with
    | bootstrap => exact absurd rfl h2
    | instrumentation =>
      show noBootstrapHostFinal ((instrumentationStage args st false).2 ++ _) = _
      rw [instrumentationStage_events]
      simp [noBootstrapHostFinal]
    | csinstrumentation =>
      show noBootstrapHostFinal ((instrumentationStage args st true).2 ++ _) = _
      rw [instrumentationStage_events]
      simp [noBootstrapHostFinal]
    | profiling =>
      obtain ⟨iB, lEvs, kEvs, hev, -, hl, hk⟩ := profilingStage_shape args w st false
      show noBootstrapHostFinal ((profilingStage args w st false).2 ++ _) = _
      rw [hev]
      rcases hl with hl | ⟨lb, d, hl, -, -, -, -⟩ <;>
        rcases hk with hk | ⟨kb, hk⟩ <;> subst hl hk <;>
        simp [noBootstrapHostFinal_append, noBootstrapHostFinal_warns, noBootstrapHostFinal]
    | csprofiling =>
      obtain ⟨iB, lEvs, kEvs, hev, -, hl, hk⟩ := profilingStage_shape args w st true
      show noBootstrapHostFinal ((profilingStage args w st true).2 ++ _) = _
      rw [hev]
      rcases hl with hl | ⟨lb, d, hl, -, -, -, -⟩ <;>
        rcases hk with hk | ⟨kb, hk⟩ <;> subst hl hk <;>
        simp [noBootstrapHostFinal_append, noBootstrapHostFinal_warns, noBootstrapHostFinal]
    | final =>
      have hhost := (finalStage_final_fields args w st).2.2.1 h1
      show noBootstrapHostFinal ((finalStage args w st).2 ++ _) = _
      rw [finalStage_events]
      simp [noBootstrapHostFinal, hhost]
  | updDefines => rfl
  | presetInstrumented =>
    show noBootstrapHostFinal ((if _ then _ else _ : OrchState × List Event).2) = _
    split <;> rfl

theorem boltMatrixOk_warns (w : World) (ws : List String) :
    boltMatrixOk w (ws.map Event.warn) = true := by
  induction ws with
  | nil => rfl
  | cons x xs ih => simpa [boltMatrixOk] using ih

theorem boltMatrixOk_append (w : World) (a b : List Event) :
    boltMatrixOk w (a ++ b) = (boltMatrixOk w a && boltMatrixOk w b) := by
  simp [boltMatrixOk]

theorem boltMatrixOk_execInstr (args : Args) (w : World) (st : OrchState) (i : Instr)
    (hb : args.bolt = true) :
    boltMatrixOk w (execInstr args w st i).2 = true := by
  cases i with
  | stageI op =>
    cases op with
    | bootstrap =>
      obtain ⟨b, hev, -⟩ := bootstrapStage_shape args w st
      show boltMatrixOk _ ((bootstrapStage args w st).2 ++ _) = _
      rw [hev]
      simp [boltMatrixOk]
    | instrumentation =>
      show boltMatrixOk _ ((instrumentationStage args st false).2 ++ _) = _
      rw [instrumentationStage_events]
      simp [boltMatrixOk]
    | csinstrumentation =>
      show boltMatrixOk _ ((instrumentationStage args st true).2 ++ _) = _
      rw [instrumentationStage_events]
      simp [boltMatrixOk]
    | profiling =>
      obtain ⟨iB, lEvs, kEvs, hev, -, hl, hk⟩ := profilingStage_shape args w st false
      show boltMatrixOk _ ((profilingStage args w st false).2 ++ _) = _
      rw [hev]
      rcases hl with hl | ⟨lb, d, hl, -, -, -, -⟩ <;>
        rcases hk with hk | ⟨kb, hk⟩ <;> subst hl hk <;>
        simp [boltMatrixOk_append, boltMatrixOk_warns, boltMatrixOk]
    | csprofiling =>
      obtain ⟨iB, lEvs, kEvs, hev, -, hl, hk⟩ := profilingStage_shape args w st true
      show boltMatrixOk _ ((profilingStage args w st true).2 ++ _) = _
      rw [hev]
      rcases hl with hl | ⟨lb, d, hl, -, -, -, -⟩ <;>
        rcases hk with hk | ⟨kb, hk⟩ <;> subst hl hk <;>
        simp [boltMatrixOk_append, boltMatrixOk_warns, boltMatrixOk]
    | final =>
      have hf := finalStage_final_fields args w st
      have hbb := hf.2.2.2.2 hb
      have hta := hf.2.1
      show boltMatrixOk _ ((finalStage args w st).2 ++ _) = _
      rw [finalStage_events]
      simp [boltMatrixOk, hbb, hta, pickSlimKernelTargets, alistSet]
  | updDefines => rfl
  | presetInstrumented =>
    show boltMatrixOk _ ((if _ then _ else _ : OrchState × List Event).2) = _
    split <;> rfl

/-! ## Helper lemmas: instrumented-builder bookkeeping (for reuse claims) -/

theorem profdataPairs_execInstr (args : Args) (w : World) (st : OrchState) (op : StageOp)
    (h : op ≠ .profiling ∧ op ≠ .csprofiling) :
    profdataPairs (execInstr args w st (.stageI op)).2 = [] := by
  cases op with
  | bootstrap =>
    obtain ⟨b, hev, -⟩ := bootstrapStage_shape args w st
    show profdataPairs ((bootstrapStage args w st).2 ++ _) = _
    rw [hev]; rfl
  | instrumentation =>
    show profdataPairs ((instrumentationStage args st false).2 ++ _) = _
    rw [instrumentationStage_events]; rfl
  | csinstrumentation =>
    show profdataPairs ((instrumentationStage args st true).2 ++ _) = _
    rw [instrumentationStage_events]; rfl
  | profiling => exact absurd rfl h.1
  | csprofiling => exact absurd rfl h.2
  | final =>
    show profdataPairs ((finalStage args w st).2 ++ _) = _
    rw [finalStage_events]; rfl

theorem profdataPairs_profiling_some (args : Args) (w : World) (st : OrchState)
    (c : Bool) (b : BuilderState) (hins : st.instrumented = some b) :
    profdataPairs (execInstr args w st (.stageI (if c then .csprofiling else .profiling))).2
      = [(b.id, b.variant)] := by
  cases c <;>
  · obtain ⟨iB, lEvs, kEvs, hev, hib, hl, hk⟩ := profilingStage_shape args w st _
    show profdataPairs ((profilingStage args w st _).2 ++ _) = _
    rw [hev]
    rcases hib with hib | ⟨hnone, -⟩
    · rw [hins] at hib
      injection hib with hbi
      subst hbi
      rcases hl with hl | ⟨lb, d, hl, -, -, -, -⟩ <;>
        rcases hk with hk | ⟨kb, hk⟩ <;> subst hl hk <;>
        simp [profdataPairs_append, profdataPairs_map_warn, profdataPairs]
    · rw [hins] at hnone
      exact absurd hnone (by simp)

theorem profdataPairs_profiling_none (args : Args) (w : World) (st : OrchState)
    (c : Bool) (hins : st.instrumented = none) :
    profdataPairs (execInstr args w st (.stageI (if c then .csprofiling else .profiling))).2
      = [((setup_instrumentation args st c).1.id, (setup_instrumentation args st c).1.variant)] := by
  cases c <;>
  · obtain ⟨iB, lEvs, kEvs, hev, hib, hl, hk⟩ := profilingStage_shape args w st _
    show profdataPairs ((profilingStage args w st _).2 ++ _) = _
    rw [hev]
    rcases hib with hib | ⟨-, hset⟩
    · rw [hins] at hib
      exact absurd hib (by simp)
    · subst hset
      rcases hl with hl | ⟨lb, d, hl, -, -, -, -⟩ <;>
        rcases hk with hk | ⟨kb, hk⟩ <;> subst hl hk <;>
        simp [profdataPairs_append, profdataPairs_map_warn, profdataPairs]

theorem instrConfigured_execInstr_instr (args : Args) (w : World) (st : OrchState) (c : Bool) :
    instrConfigured (execInstr args w st
        (.stageI (if c then .csinstrumentation else .instrumentation))).2
      = [(setup_instrumentation args st c).1] := by
  cases c <;>
  · show instrConfigured ((instrumentationStage args st _).2 ++ _) = _
    rw [instrumentationStage_events]
    rfl

theorem instrConfigured_execInstr_other (args : Args) (w : World) (st : OrchState) (op : StageOp)
    (h : op ≠ .instrumentation ∧ op ≠ .csinstrumentation) :
    instrConfigured (execInstr args w st (.stageI op)).2 = [] := by
  cases op with
  | bootstrap =>
    obtain ⟨b, hev, -⟩ := bootstrapStage_shape args w st
    show instrConfigured ((bootstrapStage args w st).2 ++ _) = _
    rw [hev]; rfl
  | instrumentation => exact absurd rfl h.1
  | csinstrumentation => exact absurd rfl h.2
  | profiling =>
    obtain ⟨iB, lEvs, kEvs, hev, -, hl, hk⟩ := profilingStage_shape args w st false
    show instrConfigured ((profilingStage args w st false).2 ++ _) = _
    rw [hev]
    rcases hl with hl | ⟨lb, d, hl, -, -, -, -⟩ <;>
      rcases hk with hk | ⟨kb, hk⟩ <;> subst hl hk <;>
      simp [instrConfigured_append, instrConfigured_map_warn, instrConfigured]
  | csprofiling =>
    obtain ⟨iB, lEvs, kEvs, hev, -, hl, hk⟩ := profilingStage_shape args w st true
    show instrConfigured ((profilingStage args w st true).2 ++ _) = _
    rw [hev]
    rcases hl with hl | ⟨lb, d, hl, -, -, -, -⟩ <;>
      rcases hk with hk | ⟨kb, hk⟩ <;> subst hl hk <;>
      simp [instrConfigured_append, instrConfigured_map_warn, instrConfigured]
  | final =>
    show instrConfigured ((finalStage args w st).2 ++ _) = _
    rw [finalStage_events]; rfl

theorem execInstr_instrumented_bootstrap (args : Args) (w : World) (st : OrchState) :
    ((execInstr args w st (.stageI .bootstrap)).1).instrumented = st.instrumented := rfl

theorem execInstr_instrumented_upd (args : Args) (w : World) (st : OrchState) :
    ((execInstr args w st .updDefines).1).instrumented = st.instrumented := rfl

theorem execInstr_instrumented_final (args : Args) (w : World) (st : OrchState) :
    ((execInstr args w st (.stageI .final)).1).instrumented = st.instrumented := rfl

theorem execInstr_instrumented_instr (args : Args) (w : World) (st : OrchState) (c : Bool) :
    ((execInstr args w st (.stageI (if c then .csinstrumentation else .instrumentation))).1).instrumented
      = some (setup_instrumentation args st c).1 := by
  cases c <;> rfl

theorem execInstr_instrumented_prof (args : Args) (w : World) (st : OrchState) (c : Bool) :
    ((execInstr args w st (.stageI (if c then .csprofiling else .profiling))).1).instrumented
      = st.instrumented := by
  cases c <;>
  · show ((profilingStage args w st _).1).instrumented = _
    unfold profilingStage
    cases hins : st.instrumented <;> dsimp only <;> split_ifs <;>
      first | rfl | exact hins

theorem execInstr_instrumented_preset_some (args : Args) (w : World) (st : OrchState)
    (b : BuilderState) (hins : st.instrumented = some b) :
    ((execInstr args w st .presetInstrumented).1).instrumented = st.instrumented := by
  show ((if _ then _ else _ : OrchState × List Event).1).instrumented = _
  split
  · next hcond =>
    rw [hins] at hcond
    simp at hcond
  · rfl

/-! ## Helper lemmas: the ordering scan over single statements -/

theorem csfold_execInstr_bootstrap (args : Args) (w : World) (st : OrchState) (s : CsScan) :
    ((execInstr args w st (.stageI .bootstrap)).2).foldl csStep s = s := by
  obtain ⟨b, hev, -⟩ := bootstrapStage_shape args w st
  show ((bootstrapStage args w st).2 ++ _).foldl csStep s = s
  rw [hev]; rfl

theorem csfold_execInstr_instr (args : Args) (w : World) (st : OrchState) (s : CsScan) :
    ((execInstr args w st (.stageI .instrumentation)).2).foldl csStep s
      = { s with seen := true } := by
  show ((instrumentationStage args st false).2 ++ _).foldl csStep s = _
  rw [instrumentationStage_events]; rfl

theorem csfold_execInstr_csinstr (args : Args) (w : World) (st : OrchState) (s : CsScan) :
    ((execInstr args w st (.stageI .csinstrumentation)).2).foldl csStep s
      = { s with ok := s.ok && s.seen } := by
  show ((instrumentationStage args st true).2 ++ _).foldl csStep s = _
  rw [instrumentationStage_events]; rfl

theorem csfold_execInstr_prof (args : Args) (w : World) (st : OrchState) (c : Bool) (s : CsScan) :
    ((execInstr args w st (.stageI (if c then .csprofiling else .profiling))).2).foldl csStep s
      = s := by
  cases c <;>
  · obtain ⟨iB, lEvs, kEvs, hev, -, hl, hk⟩ := profilingStage_shape args w st _
    show ((profilingStage args w st _).2 ++ _).foldl csStep s = s
    rw [hev]
    rcases hl with hl | ⟨lb, d, hl, -, -, -, -⟩ <;>
      rcases hk with hk | ⟨kb, hk⟩ <;> subst hl hk <;>
      simp [List.foldl_append, csfold_warns, csStep]

theorem csfold_execInstr_final (args : Args) (w : World) (st : OrchState) (s : CsScan) :
    ((execInstr args w st (.stageI .final)).2).foldl csStep s = s := by
  show ((finalStage args w st).2 ++ _).foldl csStep s = s
  rw [finalStage_events]; rfl

theorem csfold_execInstr_preset (args : Args) (w : World) (st : OrchState) (s : CsScan) :
    ((execInstr args w st .presetInstrumented).2).foldl csStep s = s := by
  rw [presetInstrumented_events]
  rfl

theorem postCommonOk_bootstrap_any (args : Args) (w : World) (st : OrchState) (u : Dict) :
    postCommonOk u (execInstr args w st (.stageI .bootstrap)).2 = true := by
  obtain ⟨b, hev, -⟩ := bootstrapStage_shape args w st
  show postCommonOk _ ((bootstrapStage args w st).2 ++ _) = _
  rw [hev]
  simp [postCommonOk]

theorem execInstr_nextId_upd (args : Args) (w : World) (st : OrchState) :
    ((execInstr args w st .updDefines).1).nextId = st.nextId := rfl

theorem profdataPairs_prof_some (args : Args) (w : World) (st : OrchState)
    (b : BuilderState) (hins : st.instrumented = some b) :
    profdataPairs (execInstr args w st (.stageI .profiling)).2 = [(b.id, b.variant)] :=
  profdataPairs_profiling_some args w st false b hins

theorem profdataPairs_csprof_some (args : Args) (w : World) (st : OrchState)
    (b : BuilderState) (hins : st.instrumented = some b) :
    profdataPairs (execInstr args w st (.stageI .csprofiling)).2 = [(b.id, b.variant)] :=
  profdataPairs_profiling_some args w st true b hins

theorem profdataPairs_prof_none (args : Args) (w : World) (st : OrchState)
    (hins : st.instrumented = none) :
    profdataPairs (execInstr args w st (.stageI .profiling)).2
      = [((setup_instrumentation args st false).1.id,
          (setup_instrumentation args st false).1.variant)] :=
  profdataPairs_profiling_none args w st false hins

theorem instrConfigured_instr (args : Args) (w : World) (st : OrchState) :
    instrConfigured (execInstr args w st (.stageI .instrumentation)).2
      = [(setup_instrumentation args st false).1] :=
  instrConfigured_execInstr_instr args w st false

theorem instrConfigured_csinstr (args : Args) (w : World) (st : OrchState) :
    instrConfigured (execInstr args w st (.stageI .csinstrumentation)).2
      = [(setup_instrumentation args st true).1] :=
  instrConfigured_execInstr_instr args w st true

theorem execInstr_instrumented_instr_plain (args : Args) (w : World) (st : OrchState) :
    ((execInstr args w st (.stageI .instrumentation)).1).instrumented
      = some (setup_instrumentation args st false).1 :=
  execInstr_instrumented_instr args w st false

theorem execInstr_instrumented_instr_cs (args : Args) (w : World) (st : OrchState) :
    ((execInstr args w st (.stageI .csinstrumentation)).1).instrumented
      = some (setup_instrumentation args st true).1 :=
  execInstr_instrumented_instr args w st true

theorem execInstr_instrumented_prof_plain (args : Args) (w : World) (st : OrchState) :
    ((execInstr args w st (.stageI .profiling)).1).instrumented = st.instrumented :=
  execInstr_instrumented_prof args w st false

theorem execInstr_instrumented_prof_cs (args : Args) (w : World) (st : OrchState) :
    ((execInstr args w st (.stageI .csprofiling)).1).instrumented = st.instrumented :=
  execInstr_instrumented_prof args w st true

theorem csfold_prof_plain (args : Args) (w : World) (st : OrchState) (s : CsScan) :
    ((execInstr args w st (.stageI .profiling)).2).foldl csStep s = s :=
  csfold_execInstr_prof args w st false s

theorem csfold_prof_cs (args : Args) (w : World) (st : OrchState) (s : CsScan) :
    ((execInstr args w st (.stageI .csprofiling)).2).foldl csStep s = s :=
  csfold_execInstr_prof args w st true s

theorem csfold_execInstr_upd (args : Args) (w : World) (st : OrchState) (s : CsScan) :
    ((execInstr args w st .updDefines).2).foldl csStep s = s := rfl

/-! ## Helper lemmas: the reuse scan over single statements -/

theorem reusefold_warns (s : ReuseScan) (ws : List String) :
    (ws.map Event.warn).foldl reuseStep s = s := by
  induction ws generalizing s with
  | nil => rfl
  | cons x xs ih => simpa [reuseStep] using ih s

theorem reusefold_execInstr_bootstrap (args : Args) (w : World) (st : OrchState)
    (s : ReuseScan) :
    ((execInstr args w st (.stageI .bootstrap)).2).foldl reuseStep s = s := by
  obtain ⟨b, hev, -⟩ := bootstrapStage_shape args w st
  show ((bootstrapStage args w st).2 ++ _).foldl reuseStep s = s
  rw [hev]; rfl

theorem reusefold_execInstr_upd (args : Args) (w : World) (st : OrchState) (s : ReuseScan) :
    ((execInstr args w st .updDefines).2).foldl reuseStep s = s := rfl

theorem reusefold_execInstr_preset (args : Args) (w : World) (st : OrchState)
    (s : ReuseScan) :
    ((execInstr args w st .presetInstrumented).2).foldl reuseStep s = s := by
  rw [presetInstrumented_events]
  rfl

theorem reusefold_execInstr_final (args : Args) (w : World) (st : OrchState)
    (s : ReuseScan) :
    ((execInstr args w st (.stageI .final)).2).foldl reuseStep s = s := by
  show ((finalStage args w st).2 ++ _).foldl reuseStep s = s
  rw [finalStage_events]; rfl

theorem reusefold_execInstr_instr (args : Args) (w : World) (st : OrchState) (c : Bool)
    (s : ReuseScan) :
    ((execInstr args w st
        (.stageI (if c then .csinstrumentation else .instrumentation))).2).foldl reuseStep s
      = { s with retained := some ((setup_instrumentation args st c).1.id,
                                   (setup_instrumentation args st c).1.variant) } := by
  cases c <;>
  · show ((instrumentationStage args st _).2 ++ _).foldl reuseStep s = _
    rw [instrumentationStage_events]
    rfl

theorem reusefold_execInstr_prof (args : Args) (w : World) (st : OrchState) (c : Bool)
    (s : ReuseScan) (b : BuilderState) (hins : st.instrumented = some b) :
    ((execInstr args w st
        (.stageI (if c then .csprofiling else .profiling))).2).foldl reuseStep s
      = { s with ok := s.ok && decide (s.retained = some (b.id, b.variant)) } := by
  cases c <;>
  · obtain ⟨iB, lEvs, kEvs, hev, hib, hl, hk⟩ := profilingStage_shape args w st _
    show ((profilingStage args w st _).2 ++ _).foldl reuseStep s = _
    rw [hev]
    rcases hib with hib | ⟨hnone, -⟩
    · rw [hins] at hib
      injection hib with hbi
      subst hbi
      rcases hl with hl | ⟨lb, d, hl, -, -, -, -⟩ <;>
        rcases hk with hk | ⟨kb, hk⟩ <;> subst hl hk <;>
        simp [List.foldl_append, reusefold_warns, reuseStep]
    · rw [hins] at hnone
      exact absurd hnone (by simp)

theorem reusefold_instr_plain (args : Args) (w : World) (st : OrchState) (s : ReuseScan) :
    ((execInstr args w st (.stageI .instrumentation)).2).foldl reuseStep s
      = { s with retained := some ((setup_instrumentation args st false).1.id,
                                   (setup_instrumentation args st false).1.variant) } :=
  reusefold_execInstr_instr args w st false s

theorem reusefold_instr_cs (args : Args) (w : World) (st : OrchState) (s : ReuseScan) :
    ((execInstr args w st (.stageI .csinstrumentation)).2).foldl reuseStep s
      = { s with retained := some ((setup_instrumentation args st true).1.id,
                                   (setup_instrumentation args st true).1.variant) } :=
  reusefold_execInstr_instr args w st true s

theorem reusefold_prof_plain (args : Args) (w : World) (st : OrchState) (s : ReuseScan)
    (b : BuilderState) (hins : st.instrumented = some b) :
    ((execInstr args w st (.stageI .profiling)).2).foldl reuseStep s
      = { s with ok := s.ok && decide (s.retained = some (b.id, b.variant)) } :=
  reusefold_execInstr_prof args w st false s b hins

theorem reusefold_prof_cs (args : Args) (w : World) (st : OrchState) (s : ReuseScan)
    (b : BuilderState) (hins : st.instrumented = some b) :
    ((execInstr args w st (.stageI .csprofiling)).2).foldl reuseStep s
      = { s with ok := s.ok && decide (s.retained = some (b.id, b.variant)) } :=
  reusefold_execInstr_prof args w st true s b hins

/-! ## Helper lemmas: whole-run traversals -/

theorem finalLast_cons (i : Instr) (rest : List Instr) :
    finalLast (i :: rest)
      = (if i = Instr.stageI .final then rest.isEmpty else finalLast rest) := by
  cases i with
  | stageI op => cases op <;> simp [finalLast]
  | updDefines => simp [finalLast]
  | presetInstrumented => simp [finalLast]

theorem exec_cons_exit (args : Args) (w : World) (st : OrchState) (i : Instr)
    (rest : List Instr) (hg : (isStageInstr i && args.stage.isSome) = true) :
    exec args w st (i :: rest)
      = ⟨(execInstr args w st i).2, (execInstr args w st i).1, .earlyExit⟩ := by
  simp only [exec, hg, if_true]

theorem exec_cons_cont (args : Args) (w : World) (st : OrchState) (i : Instr)
    (rest : List Instr) (hg : (isStageInstr i && args.stage.isSome) = false) :
    exec args w st (i :: rest)
      = ⟨(execInstr args w st i).2 ++ (exec args w (execInstr args w st i).1 rest).trace,
         (exec args w (execInstr args w st i).1 rest).state,
         (exec args w (execInstr args w st i).1 rest).outcome⟩ := by
  simp only [exec, hg, Bool.false_eq_true, if_false]

theorem exec_postCommon (args : Args) (w : World) (instrs : List Instr) :
    ∀ st : OrchState, Instr.updDefines ∉ instrs →
      ((exec args w st instrs).state.common_cmake_defines = st.common_cmake_defines
       ∧ postCommonOk st.common_cmake_defines (exec args w st instrs).trace = true) := by
  induction instrs with
  | nil => exact fun st _ => ⟨rfl, rfl⟩
  | cons i rest ih =>
    intro st h
    have hi : i ≠ Instr.updDefines := fun hh => h (hh ▸ List.mem_cons_self i rest)
    have hrest : Instr.updDefines ∉ rest := fun hh => h (List.mem_cons_of_mem _ hh)
    have hc := execInstr_common args w st i hi
    rcases Bool.eq_false_or_eq_true (isStageInstr i && args.stage.isSome) with hg | hg
    · rw [exec_cons_exit args w st i rest hg]
      exact ⟨hc, postCommonOk_execInstr args w st i⟩
    · have ihr := ih (execInstr args w st i).1 hrest
      rw [exec_cons_cont args w st i rest hg]
      constructor
      · rw [ihr.1, hc]
      · rw [postCommonOk_append, postCommonOk_execInstr args w st i, Bool.true_and]
        rw [hc] at ihr
        exact ihr.2

theorem exec_stageTools (args : Args) (w : World) (tg pj : List String)
    (instrs : List Instr) :
    ∀ st : OrchState, finalLast instrs = true →
      st.final.targets = tg → st.final.projects = pj →
      stageToolsOk tg pj (exec args w st instrs).trace = true := by
  induction instrs with
  | nil => exact fun st _ _ _ => rfl
  | cons i rest ih =>
    intro st hfl htg hpj
    have hev := stageToolsOk_execInstr args w st i tg pj htg hpj
    by_cases hfi : i = Instr.stageI StageOp.final
    · subst hfi
      have hrest : rest = [] := by
        rw [finalLast_cons] at hfl
        simpa [List.isEmpty_iff] using hfl
      subst hrest
      rcases Bool.eq_false_or_eq_true
          (isStageInstr (Instr.stageI StageOp.final) && args.stage.isSome) with hg | hg
      · rw [exec_cons_exit args w st _ _ hg]
        exact hev
      · rw [exec_cons_cont args w st _ _ hg]
        rw [stageToolsOk_append, hev, Bool.true_and]
        rfl
    · have hfl' : finalLast rest = true := by
        rw [finalLast_cons] at hfl
        simpa [hfi] using hfl
      have hpres := execInstr_final_preserved args w st i hfi
      rcases Bool.eq_false_or_eq_true (isStageInstr i && args.stage.isSome) with hg | hg
      · rw [exec_cons_exit args w st i rest hg]
        exact hev
      · rw [exec_cons_cont args w st i rest hg]
        rw [stageToolsOk_append, hev, Bool.true_and]
        exact ih (execInstr args w st i).1 hfl' (hpres ▸ htg) (hpres ▸ hpj)

theorem exec_noCs (args : Args) (w : World) (instrs : List Instr) :
    ∀ st : OrchState,
      Instr.stageI .csinstrumentation ∉ instrs → Instr.stageI .csprofiling ∉ instrs →
      noCsOps (exec args w st instrs).trace = true := by
  induction instrs with
  | nil => exact fun st _ _ => rfl
  | cons i rest ih =>
    intro st h1 h2
    have hi1 : i ≠ Instr.stageI .csinstrumentation :=
      fun hh => h1 (hh ▸ List.mem_cons_self i rest)
    have hi2 : i ≠ Instr.stageI .csprofiling :=
      fun hh => h2 (hh ▸ List.mem_cons_self i rest)
    have hev := noCsOps_execInstr args w st i hi1 hi2
    rcases Bool.eq_false_or_eq_true (isStageInstr i && args.stage.isSome) with hg | hg
    · rw [exec_cons_exit args w st i rest hg]
      exact hev
    · rw [exec_cons_cont args w st i rest hg]
      rw [noCsOps_append, hev, Bool.true_and]
      exact ih (execInstr args w st i).1 (fun hh => h1 (List.mem_cons_of_mem _ hh))
        (fun hh => h2 (List.mem_cons_of_mem _ hh))

theorem exec_noBootstrapHost (args : Args) (w : World) (instrs : List Instr)
    (hso : args.build_stage1_only = true) :
    ∀ st : OrchState, Instr.stageI .bootstrap ∉ instrs →
      noBootstrapHostFinal (exec args w st instrs).trace = true := by
  induction instrs with
  | nil => exact fun st _ => rfl
  | cons i rest ih =>
    intro st h1
    have hi1 : i ≠ Instr.stageI .bootstrap := fun hh => h1 (hh ▸ List.mem_cons_self i rest)
    have hev := noBootstrapHostFinal_execInstr args w st i hso hi1
    rcases Bool.eq_false_or_eq_true (isStageInstr i && args.stage.isSome) with hg | hg
    · rw [exec_cons_exit args w st i rest hg]
      exact hev
    · rw [exec_cons_cont args w st i rest hg]
      rw [noBootstrapHostFinal_append, hev, Bool.true_and]
      exact ih (execInstr args w st i).1 (fun hh => h1 (List.mem_cons_of_mem _ hh))

theorem exec_boltMatrix (args : Args) (w : World) (instrs : List Instr)
    (hb : args.bolt = true) :
    ∀ st : OrchState, boltMatrixOk w (exec args w st instrs).trace = true := by
  induction instrs with
  | nil => exact fun st => rfl
  | cons i rest ih =>
    intro st
    have hev := boltMatrixOk_execInstr args w st i hb
    rcases Bool.eq_false_or_eq_true (isStageInstr i && args.stage.isSome) with hg | hg
    · rw [exec_cons_exit args w st i rest hg]
      exact hev
    · rw [exec_cons_cont args w st i rest hg]
      rw [boltMatrixOk_append, hev, Bool.true_and]
      exact ih (execInstr args w st i).1

/-! ## Helper lemmas: the shape of the dispatch program -/

theorem updDefines_not_mem_programPost (args : Args) :
    Instr.updDefines ∉ programPost args := by
  unfold programPost
  split_ifs <;> simp

theorem bootstrap_not_mem_program (args : Args) (h : args.build_stage1_only = true) :
    Instr.stageI .bootstrap ∉ program args := by
  unfold program programPre programPost
  simp only [h, Bool.not_true, Bool.false_and]
  split_ifs <;> simp_all

theorem cs_not_mem_program (args : Args) (h : args.pgo = []) :
    Instr.stageI .csinstrumentation ∉ program args
    ∧ Instr.stageI .csprofiling ∉ program args := by
  unfold program programPre programPost
  simp only [h, List.isEmpty_nil, Bool.not_true, Bool.false_and]
  constructor <;> (split_ifs <;> simp_all)

theorem program_finalLast (args : Args) : finalLast (program args) = true := by
  unfold program programPre programPost
  split_ifs <;> rfl

theorem targetsStep_ok (args : Args) (w : World) (tgts : List String)
    (h : targetsStep args w = .ok tgts) : tgts = resolvedTargets args w := by
  unfold targetsStep at h
  unfold resolvedTargets
  by_cases ht : args.targets = []
  · simp only [ht, ne_eq, not_true_eq_false, if_false] at h ⊢
    exact (Except.ok.inj h).symm
  · cases hv : w.targetsValid with
    | true =>
      rw [hv] at h
      simp only [ht, ne_eq, not_false_eq_true, if_true] at h ⊢
      exact (Except.ok.inj h).symm
    | false =>
      rw [hv] at h
      simp only [ht, ne_eq, not_false_eq_true, if_true, Bool.false_eq_true, if_false] at h
      exact absurd h (by simp)

theorem initStages_ok (args : Args) (w : World) (kv : List Nat) (p : OrchState × List Event)
    (h : initStages args w kv = .ok p) :
    p.1.instrumented = none ∧ p.1.nextId = 1
    ∧ p.1.final.targets = resolvedTargets args w
    ∧ p.1.final.projects = resolvedProjects args w
    ∧ (∃ ws : List String, p.2 = ws.map Event.warn) := by
  unfold initStages at h
  cases hls : linuxSourceStep args w kv with
  | error e => rw [hls] at h; exact absurd h (by simp)
  | ok lsm =>
    rw [hls] at h
    cases hlv : llvmSourceStep args w with
    | error e => rw [hlv] at h; exact absurd h (by simp)
    | ok llvmF =>
      rw [hlv] at h
      cases hts : targetsStep args w with
      | error e => rw [hts] at h; exact absurd h (by simp)
      | ok tgts =>
        rw [hts] at h
        cases hcd : initCommonDefines args with
        | none => rw [hcd] at h; exact absurd h (by simp)
        | some cd =>
          rw [hcd] at h
          have hp := Except.ok.inj h
          subst hp
          refine ⟨rfl, rfl, ?_, rfl, ⟨_, rfl⟩⟩
          exact targetsStep_ok args w tgts hts

/-! ## Helper lemmas: the cspgo flag is inert without PGO workloads -/

theorem initStages_cspgo (args : Args) (w : World) (kv : List Nat) (c : Bool) :
    initStages { args with cspgo := c } w kv = initStages args w kv := rfl

theorem program_cspgo (args : Args) (c : Bool) (h : args.pgo = []) :
    program { args with cspgo := c } = program args := by
  simp [program, programPre, programPost, stageMatches, h]

theorem execInstr_cspgo (args : Args) (w : World) (st : OrchState) (c : Bool) (i : Instr)
    (h : args.pgo = []) :
    execInstr { args with cspgo := c } w st i = execInstr args w st i := by
  cases i with
  | stageI op => cases op <;> rfl
  | updDefines => rfl
  | presetInstrumented => simp [execInstr, h]

theorem exec_cspgo (args : Args) (w : World) (c : Bool) (instrs : List Instr)
    (h : args.pgo = []) :
    ∀ st : OrchState, exec { args with cspgo := c } w st instrs = exec args w st instrs := by
  induction instrs with
  | nil => intro st; rfl
  | cons i rest ih =>
    intro st
    rcases Bool.eq_false_or_eq_true (isStageInstr i && args.stage.isSome) with hg | hg
    · rw [exec_cons_exit { args with cspgo := c } w st i rest hg,
          exec_cons_exit args w st i rest hg, execInstr_cspgo args w st c i h]
    · rw [exec_cons_cont { args with cspgo := c } w st i rest hg,
          exec_cons_cont args w st i rest hg, execInstr_cspgo args w st c i h, ih]

/-! ## Counterexamples -/

/-- Claim C1 is false on the code: for the spec's own scenario
`pgo = {kernel-defconfig-slim, kernel-defconfig}`, `profiling()` warns and
removes the FULL variant, so the effective kernel workload list is the
slim-only `["defconfig-slim"]`, not the full-only `["defconfig"]` the claim
requires. -/
theorem c1_counterexample :
    effectivePgoTargets ["kernel-defconfig-slim", "kernel-defconfig"]
      = (["defconfig-slim"], [warnBothMsg "defconfig"])
    ∧ (effectivePgoTargets ["kernel-defconfig-slim", "kernel-defconfig"]).1
      ≠ ["defconfig"] := by
  constructor
  · decide
  · decide

/-- Claim C2 is false on the code: in a default run the bootstrap builder's
copy of the common cmake defines has no `CMAKE_C_FLAGS` key, while the
final builder's copy (taken after `update_defines`) maps it to the empty
string — the common map is mutated mid-run and the stages' copies differ. -/
theorem c2_counterexample :
    (configuredSnapshots (runTrace (runScript defaultArgs baseWorld))).map
        (fun d => dictGet d "CMAKE_C_FLAGS")
      = [none, some ""]
    ∧ (none : Option String) ≠ some "" := by
  constructor
  · decide
  · decide

/-- Claim C3 is false on the code: with `--stage profiling` but no PGO
workloads configured, the driver's guards skip every stage, so zero (not
exactly one) of the six stage operations execute and the process runs to
the end of the script instead of exiting from a stage decorator. -/
theorem c3_counterexample :
    isErr (runScript c3CexArgs baseWorld) = false
    ∧ stageOps (runTrace (runScript c3CexArgs baseWorld)) = []
    ∧ runOutcome (runScript c3CexArgs baseWorld) = some .completed := by
  refine ⟨?_, ?_, ?_⟩ <;> decide

/-- Claim C4 is false on the code: with `cspgo=true` and
`--stage csinstrumentation` in a fresh process, the cs-instrumentation
builder's configure/build runs even though the plain instrumentation stage
never completed in this run. -/
theorem c4_counterexample :
    hasCsInstrConfigured (runTrace (runScript c4CexArgs baseWorld)) = true
    ∧ csAfterInstr (runTrace (runScript c4CexArgs baseWorld)) = false := by
  constructor
  · decide
  · decide

/-! ## Claim C1 (amended) -/

/-- Claim C1, amended as the counterexample forces: for a configuration
whose kernel PGO requests are exactly `kernel-X` and `kernel-X-slim` for
the same configuration target X (in either order), `profiling()` emits the
collision warning and drops the FULL variant, so the effective kernel
workload list passed to the kernel builder equals the slim-only list (the
slim form is retained; with several full/slim pairs the in-place removal
during iteration can additionally let a later full variant escape). -/
theorem c1_full_dropped_slim_retained (X : String) (pgo : List String)
    (hX : X = "defconfig" ∨ X = "allmodconfig" ∨ X = "allyesconfig")
    (hp : pgo = ["kernel-" ++ X, "kernel-" ++ X ++ "-slim"]
        ∨ pgo = ["kernel-" ++ X ++ "-slim", "kernel-" ++ X]) :
    effectivePgoTargets pgo = ([X ++ "-slim"], [warnBothMsg X]) := by
  rcases hX with h | h | h <;> subst h <;> rcases hp with h | h <;> subst h <;> decide

theorem c1_witness :
    effectivePgoTargets ["kernel-defconfig", "kernel-defconfig-slim"]
      = (["defconfig" ++ "-slim"], [warnBothMsg "defconfig"]) :=
  c1_full_dropped_slim_retained "defconfig" _ (Or.inl rfl) (Or.inl (by decide))

/-! ## Claim C9 -/

/-- Claim C9: for a configuration that requests BOLT or a kernel-family PGO
workload and supplies an alternate Linux source folder (and is otherwise
well formed: default LLVM location, valid targets, well-formed defines),
construction raises an error — before any builder is constructed and before
any stage work — exactly when the folder is missing, not a kernel tree, or
older than the kernel builder's minimum supported version; the error raised
is the corresponding one of the three, checked in that order. -/
theorem c9_linux_validation_eager (args : Args) (w : World) (f : String)
    (hreq : args.bolt = true ∨ (args.pgo.filter (fun x => strHas x "kernel")) ≠ [])
    (hlf : args.linux_folder = some f)
    (hllvm : args.llvm_folder = none)
    (htv : w.targetsValid = true)
    (hdef : initCommonDefines args ≠ none) :
    isErr (runScript args w)
      = (!w.linuxFolderExists || !w.linuxMakefileExists
         || listLtNat w.linuxVersion w.minKernelVersion)
    ∧ ((!w.linuxFolderExists || !w.linuxMakefileExists
        || listLtNat w.linuxVersion w.minKernelVersion) = true →
        runScript args w = .error
          (if !w.linuxFolderExists then .linuxFolderMissing
           else if !w.linuxMakefileExists then .notKernelTree
           else .linuxTooOld)) := by
  have hneed : (args.bolt
      || (!args.pgo.isEmpty && !(args.pgo.filter (fun x => strHas x "kernel")).isEmpty)) = true := by
    rcases hreq with h | h
    · simp [h]
    · have hpgo : args.pgo ≠ [] := by
        intro hemp
        simp [hemp] at h
      simp [h, hpgo]
  unfold runScript initStages linuxSourceStep llvmSourceStep targetsStep
  rw [hlf, hllvm, hneed]
  cases h1 : w.linuxFolderExists with
  | false => simp [isErr]
  | true =>
    cases h2 : w.linuxMakefileExists with
    | false => simp [isErr]
    | true =>
      cases h3 : listLtNat w.linuxVersion w.minKernelVersion with
      | true => simp [isErr]
      | false =>
        simp only [Bool.not_true, Bool.false_or, Bool.or_false]
        by_cases ht : args.targets = []
        · simp only [ht, htv]
          cases hcd : initCommonDefines args with
          | none => exact absurd hcd hdef
          | some cd => simp [isErr]
        · simp only [ht, htv]
          cases hcd : initCommonDefines args with
          | none => exact absurd hcd hdef
          | some cd => simp [isErr, if_neg ht]

/-! ## Claim C2 (amended) -/

/-- Claim C2, amended as the counterexample forces: the common cmake
defines computed at construction are mutated exactly once, by
`update_defines()` after the bootstrap stage; from then on they are frozen,
so every post-bootstrap builder in the run (instrumented, cs-instrumented,
llvm-workload, final) receives one and the same copy of the common map —
the map held by the orchestrator at the end of the run. -/
theorem c2_common_frozen_after_update (args : Args) (w : World) (r : RunResult)
    (h : runScript args w = .ok r) :
    postCommonOk r.state.common_cmake_defines r.trace = true := by
  unfold runScript at h
  cases hin : initStages args w defaultKernelForPgo with
  | error e => rw [hin] at h; exact absurd h (by simp)
  | ok p =>
    rw [hin] at h
    obtain ⟨-, -, -, -, ws, hws⟩ := initStages_ok args w _ p hin
    have hp := Except.ok.inj h
    subst hp
    dsimp only
    rw [hws, postCommonOk_append, postCommonOk_warns, Bool.true_and]
    have hpost := updDefines_not_mem_programPost args
    unfold program programPre
    by_cases hb : (!args.build_stage1_only && stageMatches args "bootstrap") = true
    · rw [if_pos hb]
      simp only [List.cons_append, List.nil_append]
      rcases Bool.eq_false_or_eq_true (args.stage.isSome) with hs | hs
      · have hg : (isStageInstr (Instr.stageI .bootstrap) && args.stage.isSome) = true := by
          simp [isStageInstr, hs]
        rw [exec_cons_exit args w p.1 _ _ hg]
        dsimp only
        rw [execInstr_common args w p.1 _ (by simp)]
        exact postCommonOk_execInstr args w p.1 _
      · have hg1 : (isStageInstr (Instr.stageI .bootstrap) && args.stage.isSome) = false := by
          simp [isStageInstr, hs]
        have hg2 : (isStageInstr Instr.updDefines && args.stage.isSome) = false := by
          simp [isStageInstr]
        rw [exec_cons_cont args w p.1 _ _ hg1, exec_cons_cont args w _ _ _ hg2]
        dsimp only
        have hupd : (execInstr args w (execInstr args w p.1 (Instr.stageI .bootstrap)).1
            Instr.updDefines).2 = [] := rfl
        have hpc := exec_postCommon args w (programPost args)
          (execInstr args w (execInstr args w p.1 (Instr.stageI .bootstrap)).1
            Instr.updDefines).1 hpost
        rw [hupd, hpc.1]
        simp only [List.nil_append, postCommonOk_append]
        rw [postCommonOk_bootstrap_any, hpc.2, Bool.true_and]
    · rw [if_neg (by simpa using hb)]
      simp only [List.nil_append, List.cons_append]
      have hg2 : (isStageInstr Instr.updDefines && args.stage.isSome) = false := by
        simp [isStageInstr]
      rw [exec_cons_cont args w p.1 _ _ hg2]
      dsimp only
      have hupd : (execInstr args w p.1 Instr.updDefines).2 = [] := rfl
      have hpc := exec_postCommon args w (programPost args)
        (execInstr args w p.1 Instr.updDefines).1 hpost
      rw [hupd, hpc.1]
      simp only [List.nil_append]
      exact hpc.2

theorem c2_witness :
    postCommonOk c2wRes.state.common_cmake_defines c2wRes.trace = true :=
  c2_common_frozen_after_update c2wArgs baseWorld c2wRes rfl

/-! ## Claim C5 -/

/-- Claim C5: with the single-stage-only flag (`--build-stage1-only`) set,
`bootstrap()` is never invoked in the run, and the final stage's builder
ends its configuration with tools sourced from the host toolchain rather
than from the bootstrap directory. -/
theorem c5_stage1_no_bootstrap_host_tools (args : Args) (w : World) (r : RunResult)
    (h1 : args.build_stage1_only = true) (h : runScript args w = .ok r) :
    noBootstrapHostFinal r.trace = true := by
  unfold runScript at h
  cases hin : initStages args w defaultKernelForPgo with
  | error e => rw [hin] at h; exact absurd h (by simp)
  | ok p =>
    rw [hin] at h
    obtain ⟨-, -, -, -, ws, hws⟩ := initStages_ok args w _ p hin
    have hp := Except.ok.inj h
    subst hp
    dsimp only
    rw [hws, noBootstrapHostFinal_append, noBootstrapHostFinal_warns, Bool.true_and]
    exact exec_noBootstrapHost args w (program args) h1 p.1 (bootstrap_not_mem_program args h1)

theorem c5_witness : noBootstrapHostFinal c5wRes.trace = true :=
  c5_stage1_no_bootstrap_host_tools c5wArgs baseWorld c5wRes rfl rfl

/-! ## Claim C7 -/

/-- Claim C7: every builder in the run that is wired to a stage toolchain
(the instrumented and cs-instrumented builders, the llvm-workload profiling
builder, and the final builder in bootstrapped runs) carries exactly the
target list and project list resolved once for the default final builder at
construction time — later stages never re-derive them. -/
theorem c7_resolved_lists_shared (args : Args) (w : World) (r : RunResult)
    (h : runScript args w = .ok r) :
    stageToolsOk (resolvedTargets args w) (resolvedProjects args w) r.trace = true := by
  unfold runScript at h
  cases hin : initStages args w defaultKernelForPgo with
  | error e => rw [hin] at h; exact absurd h (by simp)
  | ok p =>
    rw [hin] at h
    obtain ⟨-, -, htg, hpj, ws, hws⟩ := initStages_ok args w _ p hin
    have hp := Except.ok.inj h
    subst hp
    dsimp only
    rw [hws, stageToolsOk_append, stageToolsOk_warns, Bool.true_and]
    exact exec_stageTools args w _ _ (program args) p.1 (program_finalLast args) htg hpj

theorem c7_witness :
    stageToolsOk (resolvedTargets c7wArgs baseWorld) (resolvedProjects c7wArgs baseWorld)
      c7wRes.trace = true :=
  c7_resolved_lists_shared c7wArgs baseWorld c7wRes rfl

/-! ## Claim C8 -/

/-- Claim C8: the slim kernel PGO workload and the BOLT workload
sub-builder of the final stage each select exactly one representative
target triple: the host triple when the host target is enabled in the
builder's target list, otherwise the first configured target of the
resolved target list. -/
theorem c8_slim_single_triple :
    (∀ (w : World) (it ft : List String) (item : String),
       splitDashCount item = 2 →
         pickKernelTargets w it ft item = pickSlimKernelTargets w it ft
         ∧ (w.hostTargetEnabled it = true → pickSlimKernelTargets w it ft = [w.hostTarget])
         ∧ (w.hostTargetEnabled it = false → pickSlimKernelTargets w it ft = ft.take 1)
         ∧ (ft ≠ [] → (pickSlimKernelTargets w it ft).length = 1))
    ∧ (∀ (args : Args) (w : World) (r : RunResult),
         args.bolt = true → runScript args w = .ok r → boltMatrixOk w r.trace = true) := by
  constructor
  · intro w it ft item hs
    refine ⟨?_, ?_, ?_, ?_⟩
    · unfold pickKernelTargets
      rw [hs]
      simp
    · intro hh
      simp [pickSlimKernelTargets, hh]
    · intro hh
      simp [pickSlimKernelTargets, hh]
    · intro hne
      unfold pickSlimKernelTargets
      cases hh : w.hostTargetEnabled it with
      | true => simp
      | false =>
        cases ft with
        | nil => exact absurd rfl hne
        | cons a l => simp
  · intro args w r hb h
    unfold runScript at h
    cases hin : initStages args w defaultKernelForPgo with
    | error e => rw [hin] at h; exact absurd h (by simp)
    | ok p =>
      rw [hin] at h
      obtain ⟨-, -, -, -, ws, hws⟩ := initStages_ok args w _ p hin
      have hp := Except.ok.inj h
      subst hp
      dsimp only
      rw [hws, boltMatrixOk_append, boltMatrixOk_warns, Bool.true_and]
      exact exec_boltMatrix args w (program args) hb p.1

theorem c8_witness :
    (pickKernelTargets c8wWorld ["MIPS", "ARM"] ["MIPS", "ARM"] "defconfig-slim"
       = pickSlimKernelTargets c8wWorld ["MIPS", "ARM"] ["MIPS", "ARM"])
    ∧ boltMatrixOk c8wWorld c8wRes.trace = true :=
  ⟨(c8_slim_single_triple.1 c8wWorld ["MIPS", "ARM"] ["MIPS", "ARM"] "defconfig-slim"
      (by decide)).1,
   c8_slim_single_triple.2 c8wArgs c8wWorld c8wRes rfl rfl⟩

/-! ## Claim C10 -/

/-- Claim C10: with `cspgo=true` but an empty PGO workload set, the CSPGO
request is silently ignored: no error is raised, the run is identical to
the corresponding non-cspgo run (a plain build), and no cs-instrumentation
or cs-profiling activity ever occurs. -/
theorem c10_cspgo_ignored_without_pgo (args : Args) (w : World) (r : RunResult)
    (h : args.pgo = []) (hr : runScript args w = .ok r) :
    runScript { args with cspgo := true } w = runScript { args with cspgo := false } w
    ∧ noCsOps r.trace = true := by
  constructor
  · have e1 := initStages_cspgo args w defaultKernelForPgo true
    have e2 := initStages_cspgo args w defaultKernelForPgo false
    unfold runScript
    rw [e1, e2]
    cases hin : initStages args w defaultKernelForPgo with
    | error e => rfl
    | ok p =>
      simp only [program_cspgo args true h, program_cspgo args false h,
        exec_cspgo args w true (program args) h, exec_cspgo args w false (program args) h]
  · unfold runScript at hr
    cases hin : initStages args w defaultKernelForPgo with
    | error e => rw [hin] at hr; exact absurd hr (by simp)
    | ok p =>
      rw [hin] at hr
      obtain ⟨-, -, -, -, ws, hws⟩ := initStages_ok args w _ p hin
      have hp := Except.ok.inj hr
      subst hp
      dsimp only
      rw [hws, noCsOps_append, noCsOps_warns, Bool.true_and]
      have hmem := cs_not_mem_program args h
      exact exec_noCs args w (program args) p.1 hmem.1 hmem.2

theorem c10_witness :
    (runScript { c10wArgs with cspgo := true } baseWorld
       = runScript { c10wArgs with cspgo := false } baseWorld)
    ∧ noCsOps c10wRes.trace = true :=
  c10_cspgo_ignored_without_pgo c10wArgs baseWorld c10wRes rfl rfl

theorem c9_witness :
    isErr (runScript c9wArgs c9wWorld)
      = (!c9wWorld.linuxFolderExists || !c9wWorld.linuxMakefileExists
         || listLtNat c9wWorld.linuxVersion c9wWorld.minKernelVersion)
    ∧ ((!c9wWorld.linuxFolderExists || !c9wWorld.linuxMakefileExists
        || listLtNat c9wWorld.linuxVersion c9wWorld.minKernelVersion) = true →
        runScript c9wArgs c9wWorld = .error
          (if !c9wWorld.linuxFolderExists then .linuxFolderMissing
           else if !c9wWorld.linuxMakefileExists then .notKernelTree
           else .linuxTooOld)) :=
  c9_linux_validation_eager c9wArgs c9wWorld "/linux"
    (Or.inr (by decide)) rfl rfl rfl (by decide)

theorem stageOps_nil : stageOps [] = [] := rfl

/-! ## Claim C3 (amended) -/

/-- Claim C3, amended as the counterexample forces: with a single-stage
request naming one of the six stage names, at most one stage operation
executes.  When the driver's guard for the requested stage is open
(bootstrap needs a non-single-stage build, the PGO stages need a non-empty
PGO workload set, the cs- stages additionally need `--cspgo`, and final is
unguarded), exactly the requested operation runs and the `build_stage`
decorator exits the process with success immediately afterwards, before any
subsequent stage; when the guard is closed, no stage operation runs at all
and the script completes normally instead of exiting from a stage. -/
theorem c3_single_stage_at_most_one (args : Args) (w : World) (r : RunResult)
    (s : String) (h1 : args.stage = some s) (h2 : s ∈ stageNames)
    (h : runScript args w = .ok r) :
    stageOps r.trace = (if stageGateOpen args s then [opOfName s] else [])
    ∧ r.outcome
        = (if stageGateOpen args s then Outcome.earlyExit else Outcome.completed) := by
  unfold runScript at h
  cases hin : initStages args w defaultKernelForPgo with
  | error e => rw [hin] at h; exact absurd h (by simp)
  | ok p =>
    rw [hin] at h
    obtain ⟨-, -, -, -, ws, hws⟩ := initStages_ok args w _ p hin
    have hp := Except.ok.inj h
    subst hp
    dsimp only
    rw [hws, stageOps_append, stageOps_map_warn]
    simp only [List.nil_append]
    have hso : args.stage.isSome = true := by rw [h1]; rfl
    have hgU : (isStageInstr Instr.updDefines && args.stage.isSome) = false := by
      simp [isStageInstr]
    simp only [stageNames, List.mem_cons, List.not_mem_nil, or_false] at h2
    rcases h2 with rfl | rfl | rfl | rfl | rfl | rfl
    · have hmB : stageMatches args "bootstrap" = true := by simp [stageMatches, h1]
      have hm1 : stageMatches args "instrumentation" = false := by simp [stageMatches, h1]
      have hm2 : stageMatches args "profiling" = false := by simp [stageMatches, h1]
      have hm3 : stageMatches args "csinstrumentation" = false := by simp [stageMatches, h1]
      have hm4 : stageMatches args "csprofiling" = false := by simp [stageMatches, h1]
      have hm5 : stageMatches args "final" = false := by simp [stageMatches, h1]
      have hgate : stageGateOpen args "bootstrap" = !args.build_stage1_only := rfl
      rcases Bool.eq_false_or_eq_true args.build_stage1_only with hb1 | hb1
      · have hprog : program args = [Instr.updDefines] := by
          simp [program, programPre, programPost, hmB, hm1, hm2, hm3, hm4, hm5, hb1]
        have hgt : stageGateOpen args "bootstrap" = false := by rw [hgate, hb1]; rfl
        rw [hprog, exec_cons_cont args w p.1 _ _ hgU]
        dsimp only
        refine ⟨?_, ?_⟩
        · simp [stageOps_append, stageOps_execInstr_updDefines, hgt, exec, stageOps_nil]
        · simp [hgt, exec]
      · have hprog : program args = [Instr.stageI .bootstrap, Instr.updDefines] := by
          simp [program, programPre, programPost, hmB, hm1, hm2, hm3, hm4, hm5, hb1]
        have hgt : stageGateOpen args "bootstrap" = true := by rw [hgate, hb1]; rfl
        have hgB : (isStageInstr (Instr.stageI .bootstrap) && args.stage.isSome) = true := by
          simp [isStageInstr, hso]
        rw [hprog, exec_cons_exit args w p.1 _ _ hgB]
        dsimp only
        refine ⟨?_, ?_⟩
        · simp [stageOps_execInstr_stage, hgt, opOfName]
        · simp [hgt]
    · have hm0 : stageMatches args "bootstrap" = false := by simp [stageMatches, h1]
      have hmI : stageMatches args "instrumentation" = true := by simp [stageMatches, h1]
      have hm2 : stageMatches args "profiling" = false := by simp [stageMatches, h1]
      have hm3 : stageMatches args "csinstrumentation" = false := by simp [stageMatches, h1]
      have hm4 : stageMatches args "csprofiling" = false := by simp [stageMatches, h1]
      have hm5 : stageMatches args "final" = false := by simp [stageMatches, h1]
      have hgate : stageGateOpen args "instrumentation" = !args.pgo.isEmpty := rfl
      rcases Bool.eq_false_or_eq_true args.pgo.isEmpty with hpe | hpe
      · have hprog : program args = [Instr.updDefines] := by
          simp [program, programPre, programPost, hm0, hmI, hm2, hm3, hm4, hm5, hpe]
        have hgt : stageGateOpen args "instrumentation" = false := by rw [hgate, hpe]; rfl
        rw [hprog, exec_cons_cont args w p.1 _ _ hgU]
        dsimp only
        refine ⟨?_, ?_⟩
        · simp [stageOps_append, stageOps_execInstr_updDefines, hgt, exec, stageOps_nil]
        · simp [hgt, exec]
      · have hprog : program args = [Instr.updDefines, Instr.stageI .instrumentation] := by
          simp [program, programPre, programPost, hm0, hmI, hm2, hm3, hm4, hm5, hpe]
        have hgt : stageGateOpen args "instrumentation" = true := by rw [hgate, hpe]; rfl
        have hgI : (isStageInstr (Instr.stageI .instrumentation)
            && args.stage.isSome) = true := by
          simp [isStageInstr, hso]
        rw [hprog, exec_cons_cont args w p.1 _ _ hgU, exec_cons_exit args w _ _ _ hgI]
        dsimp only
        refine ⟨?_, ?_⟩
        · simp [stageOps_append, stageOps_execInstr_updDefines, stageOps_execInstr_stage,
                hgt, opOfName]
        · simp [hgt]
    · have hm0 : stageMatches args "bootstrap" = false := by simp [stageMatches, h1]
      have hm1 : stageMatches args "instrumentation" = false := by simp [stageMatches, h1]
      have hmP : stageMatches args "profiling" = true := by simp [stageMatches, h1]
      have hm3 : stageMatches args "csinstrumentation" = false := by simp [stageMatches, h1]
      have hm4 : stageMatches args "csprofiling" = false := by simp [stageMatches, h1]
      have hm5 : stageMatches args "final" = false := by simp [stageMatches, h1]
      have hgate : stageGateOpen args "profiling" = !args.pgo.isEmpty := rfl
      rcases Bool.eq_false_or_eq_true args.pgo.isEmpty with hpe | hpe
      · have hprog : program args = [Instr.updDefines] := by
          simp [program, programPre, programPost, hm0, hm1, hmP, hm3, hm4, hm5, hpe]
        have hgt : stageGateOpen args "profiling" = false := by rw [hgate, hpe]; rfl
        rw [hprog, exec_cons_cont args w p.1 _ _ hgU]
        dsimp only
        refine ⟨?_, ?_⟩
        · simp [stageOps_append, stageOps_execInstr_updDefines, hgt, exec, stageOps_nil]
        · simp [hgt, exec]
      · have hprog : program args = [Instr.updDefines, Instr.stageI .profiling] := by
          simp [program, programPre, programPost, hm0, hm1, hmP, hm3, hm4, hm5, hpe]
        have hgt : stageGateOpen args "profiling" = true := by rw [hgate, hpe]; rfl
        have hgP : (isStageInstr (Instr.stageI .profiling) && args.stage.isSome) = true := by
          simp [isStageInstr, hso]
        rw [hprog, exec_cons_cont args w p.1 _ _ hgU, exec_cons_exit args w _ _ _ hgP]
        dsimp only
        refine ⟨?_, ?_⟩
        · simp [stageOps_append, stageOps_execInstr_updDefines, stageOps_execInstr_stage,
                hgt, opOfName]
        · simp [hgt]
    · have hm0 : stageMatches args "bootstrap" = false := by simp [stageMatches, h1]
      have hm1 : stageMatches args "instrumentation" = false := by simp [stageMatches, h1]
      have hm2 : stageMatches args "profiling" = false := by simp [stageMatches, h1]
      have hmCI : stageMatches args "csinstrumentation" = true := by simp [stageMatches, h1]
      have hm4 : stageMatches args "csprofiling" = false := by simp [stageMatches, h1]
      have hm5 : stageMatches args "final" = false := by simp [stageMatches, h1]
      have hgate : stageGateOpen args "csinstrumentation"
          = (!args.pgo.isEmpty && args.cspgo) := rfl
      rcases Bool.eq_false_or_eq_true args.pgo.isEmpty with hpe | hpe
      · have hprog : program args = [Instr.updDefines] := by
          simp [program, programPre, programPost, hm0, hm1, hm2, hmCI, hm4, hm5, hpe]
        have hgt : stageGateOpen args "csinstrumentation" = false := by rw [hgate, hpe]; rfl
        rw [hprog, exec_cons_cont args w p.1 _ _ hgU]
        dsimp only
        refine ⟨?_, ?_⟩
        · simp [stageOps_append, stageOps_execInstr_updDefines, hgt, exec, stageOps_nil]
        · simp [hgt, exec]
      · rcases Bool.eq_false_or_eq_true args.cspgo with hc | hc
        · have hprog : program args
              = [Instr.updDefines, Instr.stageI .csinstrumentation] := by
            simp [program, programPre, programPost, hm0, hm1, hm2, hmCI, hm4, hm5, hpe, hc]
          have hgt : stageGateOpen args "csinstrumentation" = true := by rw [hgate, hpe, hc]; rfl
          have hgCI : (isStageInstr (Instr.stageI .csinstrumentation)
              && args.stage.isSome) = true := by
            simp [isStageInstr, hso]
          rw [hprog, exec_cons_cont args w p.1 _ _ hgU, exec_cons_exit args w _ _ _ hgCI]
          dsimp only
          refine ⟨?_, ?_⟩
          · simp [stageOps_append, stageOps_execInstr_updDefines, stageOps_execInstr_stage,
                  hgt, opOfName]
          · simp [hgt]
        · have hprog : program args = [Instr.updDefines] := by
            simp [program, programPre, programPost, hm0, hm1, hm2, hmCI, hm4, hm5, hpe, hc]
          have hgt : stageGateOpen args "csinstrumentation" = false := by rw [hgate, hpe, hc]; rfl
          rw [hprog, exec_cons_cont args w p.1 _ _ hgU]
          dsimp only
          refine ⟨?_, ?_⟩
          · simp [stageOps_append, stageOps_execInstr_updDefines, hgt, exec, stageOps_nil]
          · simp [hgt, exec]
    · have hm0 : stageMatches args "bootstrap" = false := by simp [stageMatches, h1]
      have hm1 : stageMatches args "instrumentation" = false := by simp [stageMatches, h1]
      have hm2 : stageMatches args "profiling" = false := by simp [stageMatches, h1]
      have hm3 : stageMatches args "csinstrumentation" = false := by simp [stageMatches, h1]
      have hmCP : stageMatches args "csprofiling" = true := by simp [stageMatches, h1]
      have hm5 : stageMatches args "final" = false := by simp [stageMatches, h1]
      have hgate : stageGateOpen args "csprofiling"
          = (!args.pgo.isEmpty && args.cspgo) := rfl
      rcases Bool.eq_false_or_eq_true args.pgo.isEmpty with hpe | hpe
      · have hprog : program args = [Instr.updDefines] := by
          simp [program, programPre, programPost, hm0, hm1, hm2, hm3, hmCP, hm5, hpe]
        have hgt : stageGateOpen args "csprofiling" = false := by rw [hgate, hpe]; rfl
        rw [hprog, exec_cons_cont args w p.1 _ _ hgU]
        dsimp only
        refine ⟨?_, ?_⟩
        · simp [stageOps_append, stageOps_execInstr_updDefines, hgt, exec, stageOps_nil]
        · simp [hgt, exec]
      · rcases Bool.eq_false_or_eq_true args.cspgo with hc | hc
        · have hprog : program args = [Instr.updDefines, Instr.stageI .csprofiling] := by
            simp [program, programPre, programPost, hm0, hm1, hm2, hm3, hmCP, hm5, hpe, hc]
          have hgt : stageGateOpen args "csprofiling" = true := by rw [hgate, hpe, hc]; rfl
          have hgCP : (isStageInstr (Instr.stageI .csprofiling)
              && args.stage.isSome) = true := by
            simp [isStageInstr, hso]
          rw [hprog, exec_cons_cont args w p.1 _ _ hgU, exec_cons_exit args w _ _ _ hgCP]
          dsimp only
          refine ⟨?_, ?_⟩
          · simp [stageOps_append, stageOps_execInstr_updDefines, stageOps_execInstr_stage,
                  hgt, opOfName]
          · simp [hgt]
        · have hprog : program args = [Instr.updDefines] := by
            simp [program, programPre, programPost, hm0, hm1, hm2, hm3, hmCP, hm5, hpe, hc]
          have hgt : stageGateOpen args "csprofiling" = false := by rw [hgate, hpe, hc]; rfl
          rw [hprog, exec_cons_cont args w p.1 _ _ hgU]
          dsimp only
          refine ⟨?_, ?_⟩
          · simp [stageOps_append, stageOps_execInstr_updDefines, hgt, exec, stageOps_nil]
          · simp [hgt, exec]
    · have hm0 : stageMatches args "bootstrap" = false := by simp [stageMatches, h1]
      have hm1 : stageMatches args "instrumentation" = false := by simp [stageMatches, h1]
      have hm2 : stageMatches args "profiling" = false := by simp [stageMatches, h1]
      have hm3 : stageMatches args "csinstrumentation" = false := by simp [stageMatches, h1]
      have hm4 : stageMatches args "csprofiling" = false := by simp [stageMatches, h1]
      have hmF : stageMatches args "final" = true := by simp [stageMatches, h1]
      have hgt : stageGateOpen args "final" = true := rfl
      have hprog : program args
          = [Instr.updDefines, Instr.presetInstrumented, Instr.stageI .final] := by
        simp [program, programPre, programPost, hm0, hm1, hm2, hm3, hm4, hmF]
      have hgPre : (isStageInstr Instr.presetInstrumented && args.stage.isSome) = false := by
        simp [isStageInstr]
      have hgF : (isStageInstr (Instr.stageI .final) && args.stage.isSome) = true := by
        simp [isStageInstr, hso]
      rw [hprog, exec_cons_cont args w p.1 _ _ hgU, exec_cons_cont args w _ _ _ hgPre,
          exec_cons_exit args w _ _ _ hgF]
      dsimp only
      refine ⟨?_, ?_⟩
      · simp [stageOps_append, stageOps_execInstr_updDefines, stageOps_execInstr_preset,
              stageOps_execInstr_stage, hgt, opOfName]
      · simp [hgt]

theorem c3_witness :
    stageOps c3wRes.trace
      = (if stageGateOpen c3wArgs "final" then [opOfName "final"] else [])
    ∧ c3wRes.outcome
        = (if stageGateOpen c3wArgs "final" then Outcome.earlyExit else Outcome.completed) :=
  c3_single_stage_at_most_one c3wArgs baseWorld c3wRes "final" rfl (by decide) rfl

/-! ## Claim C4 (amended) -/

/-- Claim C4, amended as the counterexample forces: the CSPGO layering
guarantee holds for full runs.  In any run without a single-stage request,
a cs-instrumented builder is only ever configured after the plain
instrumentation stage completed earlier in the same run (CSPGO is layered
on top of base PGO).  In single-stage mode the guarantee fails:
`--stage csinstrumentation` with `cspgo=true` configures and builds the
cs-instrumented builder in a fresh process where instrumentation never
completed. -/
theorem c4_cs_instr_after_instr_in_full_run (args : Args) (w : World) (r : RunResult)
    (h1 : args.stage = none) (h : runScript args w = .ok r) :
    csAfterInstr r.trace = true := by
  unfold runScript at h
  cases hin : initStages args w defaultKernelForPgo with
  | error e => rw [hin] at h; exact absurd h (by simp)
  | ok p =>
    rw [hin] at h
    obtain ⟨-, -, -, -, ws, hws⟩ := initStages_ok args w _ p hin
    have hp := Except.ok.inj h
    subst hp
    dsimp only
    rw [hws]
    have hgAll : ∀ i : Instr, (isStageInstr i && args.stage.isSome) = false := by
      intro i; simp [h1]
    have hmAll : ∀ x : String, stageMatches args x = true := by
      intro x; simp [stageMatches, h1]
    rcases Bool.eq_false_or_eq_true args.build_stage1_only with hb1 | hb1
    · rcases Bool.eq_false_or_eq_true args.pgo.isEmpty with hpe | hpe
      · have hprog : program args
            = [Instr.updDefines, Instr.presetInstrumented, Instr.stageI .final] := by
          simp [program, programPre, programPost, hmAll, hb1, hpe]
        rw [hprog, exec_cons_cont args w p.1 _ _ (hgAll _),
            exec_cons_cont args w _ _ _ (hgAll _), exec_cons_cont args w _ _ _ (hgAll _)]
        dsimp only
        simp [csAfterInstr, List.foldl_append, List.foldl_nil, csfold_warns,
          csfold_execInstr_upd, csfold_execInstr_preset, csfold_execInstr_final, exec]
      · rcases Bool.eq_false_or_eq_true args.cspgo with hc | hc
        · have hprog : program args
              = [Instr.updDefines, Instr.stageI .instrumentation, Instr.stageI .profiling,
                 Instr.stageI .csinstrumentation, Instr.stageI .csprofiling,
                 Instr.presetInstrumented, Instr.stageI .final] := by
            simp [program, programPre, programPost, hmAll, hb1, hpe, hc]
          rw [hprog, exec_cons_cont args w p.1 _ _ (hgAll _),
              exec_cons_cont args w _ _ _ (hgAll _), exec_cons_cont args w _ _ _ (hgAll _),
              exec_cons_cont args w _ _ _ (hgAll _), exec_cons_cont args w _ _ _ (hgAll _),
              exec_cons_cont args w _ _ _ (hgAll _), exec_cons_cont args w _ _ _ (hgAll _)]
          dsimp only
          simp [csAfterInstr, List.foldl_append, List.foldl_nil, csfold_warns,
            csfold_execInstr_upd, csfold_execInstr_instr, csfold_execInstr_csinstr,
            csfold_prof_plain, csfold_prof_cs, csfold_execInstr_preset,
            csfold_execInstr_final, exec]
        · have hprog : program args
              = [Instr.updDefines, Instr.stageI .instrumentation, Instr.stageI .profiling,
                 Instr.presetInstrumented, Instr.stageI .final] := by
            simp [program, programPre, programPost, hmAll, hb1, hpe, hc]
          rw [hprog, exec_cons_cont args w p.1 _ _ (hgAll _),
              exec_cons_cont args w _ _ _ (hgAll _), exec_cons_cont args w _ _ _ (hgAll _),
              exec_cons_cont args w _ _ _ (hgAll _), exec_cons_cont args w _ _ _ (hgAll _)]
          dsimp only
          simp [csAfterInstr, List.foldl_append, List.foldl_nil, csfold_warns,
            csfold_execInstr_upd, csfold_execInstr_instr, csfold_prof_plain,
            csfold_execInstr_preset, csfold_execInstr_final, exec]
    · rcases Bool.eq_false_or_eq_true args.pgo.isEmpty with hpe | hpe
      · have hprog : program args
            = [Instr.stageI .bootstrap, Instr.updDefines, Instr.presetInstrumented,
               Instr.stageI .final] := by
          simp [program, programPre, programPost, hmAll, hb1, hpe]
        rw [hprog, exec_cons_cont args w p.1 _ _ (hgAll _),
            exec_cons_cont args w _ _ _ (hgAll _), exec_cons_cont args w _ _ _ (hgAll _),
            exec_cons_cont args w _ _ _ (hgAll _)]
        dsimp only
        simp [csAfterInstr, List.foldl_append, List.foldl_nil, csfold_warns,
          csfold_execInstr_bootstrap, csfold_execInstr_upd, csfold_execInstr_preset,
          csfold_execInstr_final, exec]
      · rcases Bool.eq_false_or_eq_true args.cspgo with hc | hc
        · have hprog : program args
              = [Instr.stageI .bootstrap, Instr.updDefines, Instr.stageI .instrumentation,
                 Instr.stageI .profiling, Instr.stageI .csinstrumentation,
                 Instr.stageI .csprofiling, Instr.presetInstrumented,
                 Instr.stageI .final] := by
            simp [program, programPre, programPost, hmAll, hb1, hpe, hc]
          rw [hprog, exec_cons_cont args w p.1 _ _ (hgAll _),
              exec_cons_cont args w _ _ _ (hgAll _), exec_cons_cont args w _ _ _ (hgAll _),
              exec_cons_cont args w _ _ _ (hgAll _), exec_cons_cont args w _ _ _ (hgAll _),
              exec_cons_cont args w _ _ _ (hgAll _), exec_cons_cont args w _ _ _ (hgAll _),
              exec_cons_cont args w _ _ _ (hgAll _)]
          dsimp only
          simp [csAfterInstr, List.foldl_append, List.foldl_nil, csfold_warns,
            csfold_execInstr_bootstrap, csfold_execInstr_upd, csfold_execInstr_instr,
            csfold_execInstr_csinstr, csfold_prof_plain, csfold_prof_cs,
            csfold_execInstr_preset, csfold_execInstr_final, exec]
        · have hprog : program args
              = [Instr.stageI .bootstrap, Instr.updDefines, Instr.stageI .instrumentation,
                 Instr.stageI .profiling, Instr.presetInstrumented, Instr.stageI .final] := by
            simp [program, programPre, programPost, hmAll, hb1, hpe, hc]
          rw [hprog, exec_cons_cont args w p.1 _ _ (hgAll _),
              exec_cons_cont args w _ _ _ (hgAll _), exec_cons_cont args w _ _ _ (hgAll _),
              exec_cons_cont args w _ _ _ (hgAll _), exec_cons_cont args w _ _ _ (hgAll _),
              exec_cons_cont args w _ _ _ (hgAll _)]
          dsimp only
          simp [csAfterInstr, List.foldl_append, List.foldl_nil, csfold_warns,
            csfold_execInstr_bootstrap, csfold_execInstr_upd, csfold_execInstr_instr,
            csfold_prof_plain, csfold_execInstr_preset, csfold_execInstr_final, exec]

theorem c4_witness : csAfterInstr c4wRes.trace = true :=
  c4_cs_instr_after_instr_in_full_run c4wArgs baseWorld c4wRes rfl rfl

/-! ## Claim C6 -/

/-- Claim C6: `profiling()` reuses the retained instrumented builder when a
prior `instrumentation()` call in this process retained one, and otherwise
constructs an instrumented builder transparently before any profiling
workload runs.  Part one: in a full run, every profile merge used exactly
the instrumented builder most recently retained by an instrumentation
stage.  Part two: in single-stage profiling in a fresh process, no
instrumentation stage ever configures a builder, yet the profile merge uses
a transparently constructed instrumented builder carrying the
orchestrator's first builder id and the plain (non-CS) variant selected,
per the `cspgo=false` argument, by the full-toolchain flag. -/
theorem c6_instrumented_reuse_or_fresh (args : Args) (w : World) (r : RunResult)
    (h : runScript args w = .ok r) :
    (args.stage = none → reuseOk r.trace = true)
    ∧ (args.stage = some "profiling" → args.pgo ≠ [] →
        instrConfigured r.trace = []
        ∧ profdataPairs r.trace = [(1, variantOfInstr false args.full_toolchain)]) := by
  unfold runScript at h
  cases hin : initStages args w defaultKernelForPgo with
  | error e => rw [hin] at h; exact absurd h (by simp)
  | ok p =>
    rw [hin] at h
    obtain ⟨hins0, hnid, -, -, ws, hws⟩ := initStages_ok args w _ p hin
    have hp := Except.ok.inj h
    subst hp
    dsimp only
    rw [hws]
    constructor
    · intro h1
      have hgAll : ∀ i : Instr, (isStageInstr i && args.stage.isSome) = false := by
        intro i; simp [h1]
      have hmAll : ∀ x : String, stageMatches args x = true := by
        intro x; simp [stageMatches, h1]
      rcases Bool.eq_false_or_eq_true args.build_stage1_only with hb1 | hb1
      · rcases Bool.eq_false_or_eq_true args.pgo.isEmpty with hpe | hpe
        · have hprog : program args
              = [Instr.updDefines, Instr.presetInstrumented, Instr.stageI .final] := by
            simp [program, programPre, programPost, hmAll, hb1, hpe]
          rw [hprog, exec_cons_cont args w p.1 _ _ (hgAll _),
              exec_cons_cont args w _ _ _ (hgAll _), exec_cons_cont args w _ _ _ (hgAll _)]
          dsimp only
          simp [reuseOk, List.foldl_append, List.foldl_nil, reusefold_warns,
            reusefold_execInstr_upd, reusefold_execInstr_preset,
            reusefold_execInstr_final, exec]
        · rcases Bool.eq_false_or_eq_true args.cspgo with hc | hc
          · have hprog : program args
                = [Instr.updDefines, Instr.stageI .instrumentation, Instr.stageI .profiling,
                   Instr.stageI .csinstrumentation, Instr.stageI .csprofiling,
                   Instr.presetInstrumented, Instr.stageI .final] := by
              simp [program, programPre, programPost, hmAll, hb1, hpe, hc]
            rw [hprog, exec_cons_cont args w p.1 _ _ (hgAll _),
                exec_cons_cont args w _ _ _ (hgAll _), exec_cons_cont args w _ _ _ (hgAll _),
                exec_cons_cont args w _ _ _ (hgAll _), exec_cons_cont args w _ _ _ (hgAll _),
                exec_cons_cont args w _ _ _ (hgAll _), exec_cons_cont args w _ _ _ (hgAll _)]
            dsimp only
            have hinsP := execInstr_instrumented_instr_plain args w
              (execInstr args w p.1 Instr.updDefines).1
            have hinsCP := execInstr_instrumented_instr_cs args w
              (execInstr args w (execInstr args w (execInstr args w p.1
                  Instr.updDefines).1 (Instr.stageI .instrumentation)).1
                (Instr.stageI .profiling)).1
            simp [reuseOk, List.foldl_append, List.foldl_nil, reusefold_warns,
              reusefold_execInstr_upd, reusefold_instr_plain, reusefold_instr_cs,
              reusefold_prof_plain, reusefold_prof_cs, reusefold_execInstr_preset,
              reusefold_execInstr_final, exec, hinsP, hinsCP]
          · have hprog : program args
                = [Instr.updDefines, Instr.stageI .instrumentation, Instr.stageI .profiling,
                   Instr.presetInstrumented, Instr.stageI .final] := by
              simp [program, programPre, programPost, hmAll, hb1, hpe, hc]
            rw [hprog, exec_cons_cont args w p.1 _ _ (hgAll _),
                exec_cons_cont args w _ _ _ (hgAll _), exec_cons_cont args w _ _ _ (hgAll _),
                exec_cons_cont args w _ _ _ (hgAll _), exec_cons_cont args w _ _ _ (hgAll _)]
            dsimp only
            have hinsP := execInstr_instrumented_instr_plain args w
              (execInstr args w p.1 Instr.updDefines).1
            simp [reuseOk, List.foldl_append, List.foldl_nil, reusefold_warns,
              reusefold_execInstr_upd, reusefold_instr_plain, reusefold_prof_plain,
              reusefold_execInstr_preset, reusefold_execInstr_final, exec, hinsP]
      · rcases Bool.eq_false_or_eq_true args.pgo.isEmpty with hpe | hpe
        · have hprog : program args
              = [Instr.stageI .bootstrap, Instr.updDefines, Instr.presetInstrumented,
                 Instr.stageI .final] := by
            simp [program, programPre, programPost, hmAll, hb1, hpe]
          rw [hprog, exec_cons_cont args w p.1 _ _ (hgAll _),
              exec_cons_cont args w _ _ _ (hgAll _), exec_cons_cont args w _ _ _ (hgAll _),
              exec_cons_cont args w _ _ _ (hgAll _)]
          dsimp only
          simp [reuseOk, List.foldl_append, List.foldl_nil, reusefold_warns,
            reusefold_execInstr_bootstrap, reusefold_execInstr_upd,
            reusefold_execInstr_preset, reusefold_execInstr_final, exec]
        · rcases Bool.eq_false_or_eq_true args.cspgo with hc | hc
          · have hprog : program args
                = [Instr.stageI .bootstrap, Instr.updDefines, Instr.stageI .instrumentation,
                   Instr.stageI .profiling, Instr.stageI .csinstrumentation,
                   Instr.stageI .csprofiling, Instr.presetInstrumented,
                   Instr.stageI .final] := by
              simp [program, programPre, programPost, hmAll, hb1, hpe, hc]
            rw [hprog, exec_cons_cont args w p.1 _ _ (hgAll _),
                exec_cons_cont args w _ _ _ (hgAll _), exec_cons_cont args w _ _ _ (hgAll _),
                exec_cons_cont args w _ _ _ (hgAll _), exec_cons_cont args w _ _ _ (hgAll _),
                exec_cons_cont args w _ _ _ (hgAll _), exec_cons_cont args w _ _ _ (hgAll _),
                exec_cons_cont args w _ _ _ (hgAll _)]
            dsimp only
            have hinsP := execInstr_instrumented_instr_plain args w
              (execInstr args w (execInstr args w p.1 (Instr.stageI .bootstrap)).1
                Instr.updDefines).1
            have hinsCP := execInstr_instrumented_instr_cs args w
              (execInstr args w (execInstr args w (execInstr args w (execInstr args w p.1
                    (Instr.stageI .bootstrap)).1 Instr.updDefines).1
                  (Instr.stageI .instrumentation)).1 (Instr.stageI .profiling)).1
            simp [reuseOk, List.foldl_append, List.foldl_nil, reusefold_warns,
              reusefold_execInstr_bootstrap, reusefold_execInstr_upd, reusefold_instr_plain,
              reusefold_instr_cs, reusefold_prof_plain, reusefold_prof_cs,
              reusefold_execInstr_preset, reusefold_execInstr_final, exec, hinsP, hinsCP]
          · have hprog : program args
                = [Instr.stageI .bootstrap, Instr.updDefines, Instr.stageI .instrumentation,
                   Instr.stageI .profiling, Instr.presetInstrumented,
                   Instr.stageI .final] := by
              simp [program, programPre, programPost, hmAll, hb1, hpe, hc]
            rw [hprog, exec_cons_cont args w p.1 _ _ (hgAll _),
                exec_cons_cont args w _ _ _ (hgAll _), exec_cons_cont args w _ _ _ (hgAll _),
                exec_cons_cont args w _ _ _ (hgAll _), exec_cons_cont args w _ _ _ (hgAll _),
                exec_cons_cont args w _ _ _ (hgAll _)]
            dsimp only
            have hinsP := execInstr_instrumented_instr_plain args w
              (execInstr args w (execInstr args w p.1 (Instr.stageI .bootstrap)).1
                Instr.updDefines).1
            simp [reuseOk, List.foldl_append, List.foldl_nil, reusefold_warns,
              reusefold_execInstr_bootstrap, reusefold_execInstr_upd, reusefold_instr_plain,
              reusefold_prof_plain, reusefold_execInstr_preset, reusefold_execInstr_final,
              exec, hinsP]
    · intro h1 hne
      have hso : args.stage.isSome = true := by rw [h1]; rfl
      have hgU : (isStageInstr Instr.updDefines && args.stage.isSome) = false := by
        simp [isStageInstr]
      have hpe : args.pgo.isEmpty = false := by
        rcases hargs : args.pgo with _ | ⟨a, t⟩
        · exact absurd hargs hne
        · rfl
      have hm0 : stageMatches args "bootstrap" = false := by simp [stageMatches, h1]
      have hm1 : stageMatches args "instrumentation" = false := by simp [stageMatches, h1]
      have hmP : stageMatches args "profiling" = true := by simp [stageMatches, h1]
      have hm3 : stageMatches args "csinstrumentation" = false := by simp [stageMatches, h1]
      have hm4 : stageMatches args "csprofiling" = false := by simp [stageMatches, h1]
      have hm5 : stageMatches args "final" = false := by simp [stageMatches, h1]
      have hprog : program args = [Instr.updDefines, Instr.stageI .profiling] := by
        simp [program, programPre, programPost, hm0, hm1, hmP, hm3, hm4, hm5, hpe]
      have hgP : (isStageInstr (Instr.stageI .profiling) && args.stage.isSome) = true := by
        simp [isStageInstr, hso]
      rw [hprog, exec_cons_cont args w p.1 _ _ hgU, exec_cons_exit args w _ _ _ hgP]
      dsimp only
      have hiU : ((execInstr args w p.1 Instr.updDefines).1).instrumented = none := by
        rw [execInstr_instrumented_upd]; exact hins0
      have hnU : ((execInstr args w p.1 Instr.updDefines).1).nextId = 1 := by
        rw [execInstr_nextId_upd]; exact hnid
      have hupd2 : (execInstr args w p.1 Instr.updDefines).2 = [] := rfl
      rw [hupd2]
      simp only [List.nil_append]
      constructor
      · rw [instrConfigured_append, instrConfigured_map_warn,
            instrConfigured_execInstr_other args w _ .profiling ⟨by simp, by simp⟩]
        rfl
      · rw [profdataPairs_append, profdataPairs_map_warn,
            profdataPairs_prof_none args w _ hiU]
        simp only [List.nil_append]
        obtain ⟨hid, hvar, -, -, -, -, -⟩ :=
          setup_instrumentation_fields args (execInstr args w p.1 Instr.updDefines).1 false
        rw [hid, hvar, hnU]

theorem c6_witness :
    reuseOk c6wRes.trace = true
    ∧ instrConfigured c6w2Res.trace = []
    ∧ profdataPairs c6w2Res.trace = [(1, variantOfInstr false c6w2Args.full_toolchain)] :=
  ⟨(c6_instrumented_reuse_or_fresh c6wArgs baseWorld c6wRes rfl).1 rfl,
   (c6_instrumented_reuse_or_fresh c6w2Args baseWorld c6w2Res rfl).2 rfl (by decide)⟩

end TcBuild
